import Mathlib

/-!
Shallow embedding of the cycle-accurate NMOS 6502 CPU core of this repository
(class `M6502`, declared and largely defined inline in `src/src/1541/SSD1306.h`,
lines 148-684).  The configuration embedded is the one selected by the header's
compile-time toggles: `SUPPORT_IRQ` defined, `SUPPORT_NMI` and
`SUPPORT_RDY_HALTING` undefined, so `BUS_READ` is `dataBusReadFn`.

Machine integers are modelled as `Nat` with explicit truncation where the C++
types truncate: a `uint8_t` assignment is `% 256`, a `uint16_t` assignment is
`% 65536` (or a `|||` of disjoint in-range parts, exactly where the C++ uses
`|=`).  The two host bus callbacks are modelled by a pure memory function
`MemFn : Nat -> Nat` for reads, and by an explicit event list for both reads
and writes: each emulated cycle returns the list of bus transactions it issued,
in order.

Bodies that live in the `M6502` translation unit absent from this repository
snapshot (`Step`, `Reset`, `InstructionFetch`, `InstructionFetchIRQ`, the two
256-entry dispatch tables, `rel_5_8_T2`, `absx_2_5_T3`, `absy_2_5_T3`,
`idy_2_7_T4`, `brk_5_4_T4`, `IRQ_T4`, `ADC`, `SBC`, `ARR`) are modelled from
the specification; each such definition carries a doc comment starting with
`Modelled from the spec:`.
-/

namespace MOS6502

/-- A single bus transaction as seen by the host: a call to `dataBusReadFn`
with an address, or a call to `dataBusWriteFn` with an address and a value. -/
inductive BusOp where
  | read : Nat → BusOp
  | write : Nat → Nat → BusOp
deriving DecidableEq, Repr

/-- Whether a bus transaction is a read. -/
def BusOp.isRead : BusOp → Bool
  | .read _ => true
  | .write _ _ => false

/-- Whether a bus transaction is a write. -/
def BusOp.isWrite : BusOp → Bool
  | .read _ => false
  | .write _ _ => true

/-- The pure behaviour of the host-supplied data bus read function: the byte
returned for each address (the model truncates it to 8 bits at every call). -/
def MemFn : Type := Nat → Nat

/-- The per-cycle address-mode stage functions of `M6502` (the possible values
of the member-function pointer `addressModeCycleFn`, SSD1306.h l.317), one
constructor per function declared in the class. -/
inductive Stage where
  | InstructionFetch
  | InstructionFetchIRQ
  | sb_1_T1
  | sb_jam_T1
  | imm_2_1_T1
  | rel_5_8_T1
  | rel_5_8_T2
  | rel_5_8_T3
  | zp_2_1_T1
  | zp_2_1_T2
  | zp_3_1_T1
  | zp_3_1_T2
  | abs_2_3_T1
  | abs_2_3_T2
  | abs_2_3_T3
  | abs_3_2_T1
  | abs_3_2_T2
  | abs_3_2_T3
  | idx_2_4_T1
  | idx_2_4_T2
  | idx_2_4_T3
  | idx_2_4_T4
  | idx_2_4_T5
  | idx_3_3_T1
  | idx_3_3_T2
  | idx_3_3_T3
  | idx_3_3_T4
  | idx_3_3_T5
  | idx_Undoc_T1
  | idx_Undoc_T2
  | idx_Undoc_T3
  | idx_Undoc_T4
  | idx_Undoc_T5
  | idx_Undoc_T6
  | idx_Undoc_T7
  | absx_2_5_T1
  | absx_2_5_T2
  | absx_2_5_T3
  | absx_2_5_T4
  | absx_3_4_T1
  | absx_3_4_T2
  | absx_3_4_T3
  | absx_3_4_T4
  | absy_2_5_T1
  | absy_2_5_T2
  | absy_2_5_T3
  | absy_2_5_T4
  | absy_3_4_T1
  | absy_3_4_T2
  | absy_3_4_T3
  | absy_3_4_T4
  | zpx_2_6_T1
  | zpx_2_6_T2
  | zpx_2_6_T3
  | zpx_3_5_T1
  | zpx_3_5_T2
  | zpx_3_5_T3
  | zpy_2_6_T1
  | zpy_2_6_T2
  | zpy_2_6_T3
  | zpy_3_5_T1
  | zpy_3_5_T2
  | zpy_3_5_T3
  | idy_2_7_T1
  | idy_2_7_T2
  | idy_2_7_T3
  | idy_2_7_T4
  | idy_2_7_T5
  | idy_3_6_T1
  | idy_3_6_T2
  | idy_3_6_T3
  | idy_3_6_T4
  | idy_3_6_T5
  | idy_Undoc_T1
  | idy_Undoc_T2
  | idy_Undoc_T3
  | idy_Undoc_T4
  | idy_Undoc_T5
  | idy_Undoc_T6
  | idy_Undoc_T7
  | zp_4_1_T1
  | zp_4_1_T2
  | zp_4_1_T3
  | zp_4_1_T4
  | abs_4_2_T1
  | abs_4_2_T2
  | abs_4_2_T3
  | abs_4_2_T4
  | abs_4_2_T5
  | zpx_4_3_T1
  | zpx_4_3_T2
  | zpx_4_3_T3
  | zpx_4_3_T4
  | zpx_4_3_T5
  | absx_4_4_T1
  | absx_4_4_T2
  | absx_4_4_T3
  | absx_4_4_T4
  | absx_4_4_T5
  | absx_4_4_T6
  | absy_4_4_T1
  | absy_4_4_T2
  | absy_4_4_T3
  | absy_4_4_T4
  | absy_4_4_T5
  | absy_4_4_T6
  | ph_5_1_T1
  | ph_5_1_T2
  | pl_5_2_T1
  | pl_5_2_T2
  | pl_5_2_T3
  | jsr_5_3_T1
  | jsr_5_3_T2
  | jsr_5_3_T3
  | jsr_5_3_T4
  | jsr_5_3_T5
  | rti_5_5_T1
  | rti_5_5_T2
  | rti_5_5_T3
  | rti_5_5_T4
  | rti_5_5_T5
  | abs5_6_1_T1
  | abs5_6_1_T2
  | abs5_6_2_T1
  | abs5_6_2_T2
  | abs5_6_2_T3
  | abs5_6_2_T4
  | rts_5_7_T1
  | rts_5_7_T2
  | rts_5_7_T3
  | rts_5_7_T4
  | rts_5_7_T5
  | brk_5_4_T1
  | brk_5_4_T2
  | brk_5_4_T3
  | brk_5_4_T4
  | brk_5_4_T5
  | brk_5_4_T6
  | Reset_T0
  | Reset_T1
  | Reset_T2
  | Reset_T3
  | Reset_T4
  | Reset_T5
  | Reset_T6
  | IRQ_T1
  | IRQ_T2
  | IRQ_T3
  | IRQ_T4
  | IRQ_T5
  | IRQ_T6
deriving DecidableEq, Repr

/-- The opcode body functions of `M6502` (the possible values of the
member-function pointer `opcodeCycleFn`, SSD1306.h l.318), one constructor per
opcode function declared in the class (SSD1306.h l.340-417). -/
inductive Op where
  | ADC | ANC | AND | ASL | BCC | BCS | BEQ | BIT | BMI | BNE | BPL | BVC | BVS
  | BRK | CLC | CLD | CLI | CLV | CMP | CPX | CPY | DEC | DEX | DEY | EOR | INC
  | INX | INY | JAM | JMP | JSR | LDA | LDX | LDY | LSR | NOP | ORA | PHA | PHP
  | PLA | PLP | ROL | ROR | RTI | RTS | SBC | SEC | SED | SEI | STA | STX | STY
  | TAX | TAY | TSX | TXA | TXS | TYA
  | ASR | LXA | ARR | LAX | LAS | SAX | SBX | SHA | SHY | DCP | ISB | SLO | RLA
  | SRE | RRA | SHS | SHX | XAA
deriving DecidableEq, Repr

/-- The mutable CPU state of `M6502` (SSD1306.h l.278-318).  The C++ unions
`ea`/`ra` and `ia`/`oldpc` are each a single field here (named `ea` and `ia`);
the `ra` and `oldpc` accesses of the source read and write these fields.
`IRQAsserted` is the `asserted` flag of the `Interrupt IRQ` child object. -/
structure CPU where
  ea : Nat
  ia : Nat
  value : Nat
  pc : Nat
  opcode : Nat
  a : Nat
  x : Nat
  y : Nat
  status : Nat
  sp : Nat
  CLIMaskingInterrupt : Bool
  BranchTakenMaskingInterrupt : Bool
  IRQPending : Bool
  IRQAsserted : Bool
  addressModeCycleFn : Stage
  opcodeCycleFn : Op
deriving DecidableEq, Repr

/-- Status flag constant `FLAG_CARRY` (SSD1306.h l.263). -/
def FLAG_CARRY : Nat := 0x01

/-- Status flag constant `FLAG_ZERO`. -/
def FLAG_ZERO : Nat := 0x02

/-- Status flag constant `FLAG_INTERRUPT`. -/
def FLAG_INTERRUPT : Nat := 0x04

/-- Status flag constant `FLAG_DECIMAL`. -/
def FLAG_DECIMAL : Nat := 0x08

/-- Status flag constant `FLAG_BREAK`. -/
def FLAG_BREAK : Nat := 0x10

/-- Status flag constant `FLAG_CONSTANT` (the U bit, SSD1306.h l.268). -/
def FLAG_CONSTANT : Nat := 0x20

/-- Status flag constant `FLAG_OVERFLOW`. -/
def FLAG_OVERFLOW : Nat := 0x40

/-- Status flag constant `FLAG_SIGN`. -/
def FLAG_SIGN : Nat := 0x80

/-- The conditional set/clear helpers of the source, e.g.
`SetC(uint16_t test) { test != 0 ? SetC() : ClearC(); }` (SSD1306.h l.625-642):
set the flag bit when the condition holds, clear it otherwise. -/
def setFlagIf (st flag : Nat) (b : Bool) : Nat :=
  if b then st ||| flag else st &&& (255 - flag)

/-- `EstablishZ(uint16_t val) { SetZ((val & 0x00FF) == 0); }` (l.644). -/
def establishZ (st v : Nat) : Nat := setFlagIf st FLAG_ZERO (v % 256 == 0)

/-- `EstablishN(uint16_t val) { SetN(val & 0x0080); }` (l.645). -/
def establishN (st v : Nat) : Nat := setFlagIf st FLAG_SIGN (v &&& 0x80 != 0)

/-- `EstablishC(uint16_t val) { SetC(val & 0xFF00); }` (l.646). -/
def establishC (st v : Nat) : Nat := setFlagIf st FLAG_CARRY (v &&& 0xFF00 != 0)

/-- `EstablishNZ(uint16_t val) { EstablishZ(val); EstablishN(val); }` (l.648). -/
def establishNZ (st v : Nat) : Nat := establishN (establishZ st v) v

/-- `Push(uint8_t val) { dataBusWriteFn(0x100 + sp--, val); }` (SSD1306.h
l.323): the write goes to `0x100 + sp` before the post-decrement; `sp` wraps
modulo 256. -/
def Push (s : CPU) (v : Nat) : CPU × List BusOp :=
  ({ s with sp := (s.sp + 255) % 256 }, [BusOp.write (0x100 + s.sp) (v % 256)])

/-- `Pull(void) { return (dataBusReadFn(0x100 + ++sp)); }` (SSD1306.h l.324):
`sp` is pre-incremented (wrapping modulo 256) and the byte is read from the new
`0x100 + sp`.  Returns the updated state, the byte pulled, and the bus read. -/
def Pull (m : MemFn) (s : CPU) : (CPU × Nat) × List BusOp :=
  let sp1 := (s.sp + 1) % 256
  (({ s with sp := sp1 }, m (0x100 + sp1) % 256), [BusOp.read (0x100 + sp1)])

/-- `WriteValue(uint8_t byte)` (SSD1306.h l.327-331): if the current address
mode stage is the single-byte (accumulator) stage `sb_1_T1`, the byte goes to
register `a` and no bus access happens; otherwise one bus write of the byte to
`ea` is issued. -/
def WriteValue (s : CPU) (v : Nat) : CPU × List BusOp :=
  if s.addressModeCycleFn = Stage.sb_1_T1 then ({ s with a := v % 256 }, [])
  else (s, [BusOp.write s.ea (v % 256)])

/-- Modelled from the spec: the body of `M6502::ADC` is declared at SSD1306.h
l.340 but defined in the `M6502` translation unit absent from this repository
snapshot.  Spec section 4.4: `r = a + value + C`; V from
`(~(a^value) & (a^r) & 0x80)`; N and Z follow the pre-adjust binary
`r & 0xFF`; in binary mode C is set when `r > 0xFF`; in decimal mode (D = 1)
the result receives the usual NMOS BCD nibble adjustment and C is the
binary-BCD carry. -/
def adcBody (s : CPU) : CPU :=
  let v := s.value % 256
  let c := s.status &&& FLAG_CARRY
  let r := s.a + v + c
  let st := establishNZ s.status r
  let st := setFlagIf st FLAG_OVERFLOW
    (((255 ^^^ (s.a ^^^ v)) &&& (s.a ^^^ r) &&& 0x80) != 0)
  if s.status &&& FLAG_DECIMAL = 0 then
    { s with a := r % 256, status := setFlagIf st FLAG_CARRY (decide (255 < r)) }
  else
    let lo := (s.a &&& 15) + (v &&& 15) + c
    let lo := if 9 < lo then lo + 6 else lo
    let hi := s.a / 16 + v / 16 + (if 15 < lo then 1 else 0)
    let hi := if 9 < hi then hi + 6 else hi
    { s with
      a := (hi &&& 15) * 16 + (lo &&& 15),
      status := setFlagIf st FLAG_CARRY (decide (15 < hi)) }

/-- Modelled from the spec: the body of `M6502::SBC` (declared SSD1306.h l.385)
is absent from this snapshot.  Spec section 4.4: SBC is identical to ADC with
`value` ones-complemented.  The scratch `value` field itself is not clobbered
by the complement. -/
def sbcBody (s : CPU) : CPU :=
  { adcBody { s with value := (s.value % 256) ^^^ 255 } with value := s.value }

/-- Modelled from the spec: the body of `M6502::ARR` (declared SSD1306.h l.402)
is absent from this snapshot.  Spec section 4.4:
`A = ((A & M) >> 1) | (C << 7)`; V = bit6 XOR bit5 of the result; C = bit6 of
the result; N and Z from the result. -/
def arrBody (s : CPU) : CPU :=
  let r := (s.a &&& (s.value % 256)) / 2 + (s.status &&& FLAG_CARRY) * 128
  let st := establishNZ s.status r
  let st := setFlagIf st FLAG_OVERFLOW ((((r / 64) ^^^ (r / 32)) &&& 1) != 0)
  let st := setFlagIf st FLAG_CARRY (r &&& 0x40 != 0)
  { s with a := r % 256, status := st }

/-- The `BRANCH_CONDITION(flag, condition)` macro (SSD1306.h l.230-239), the
shared body of all eight branch opcodes, executed at the `rel_5_8_T1` cycle:
read the offset byte at `pc` (post-incrementing `pc`), sign-extend it into the
`ra` half of the `ea`/`ra` union; when `(status & flag) == condition` the
branch is taken: `oldpc` (the `ia` union) records the incremented `pc`, `pc`
gets the partial sum `(pc & 0xff00) | ((pc + ra) & 0xff)` and the stage chains
to `rel_5_8_T2`; otherwise the stage returns to `InstructionFetch`. -/
def branchCond (m : MemFn) (flag cond : Nat) (s : CPU) : CPU × List BusOp :=
  let raw := m s.pc % 256
  let pc1 := (s.pc + 1) % 65536
  let ra := if 0x80 ≤ raw then raw ||| 0xFF00 else raw
  (if s.status &&& flag = cond then
    { s with
      ea := ra, ia := pc1,
      pc := (pc1 / 256) * 256 + (pc1 + ra) % 256,
      addressModeCycleFn := Stage.rel_5_8_T2 }
   else
    { s with ea := ra, pc := pc1, addressModeCycleFn := Stage.InstructionFetch },
   [BusOp.read s.pc])

/-- The opcode bodies of `M6502` (SSD1306.h l.340-417), one case per opcode
function, translated line by line.  Each returns the updated CPU state and the
bus transactions the body itself issued (via `WriteValue`, `Push`, `Pull` or
the branch macro's operand read). -/
def execOp (m : MemFn) (op : Op) (s : CPU) : CPU × List BusOp :=
  match op with
  | .ADC => (adcBody s, [])
  | .ANC =>
      let result := s.a &&& s.value
      ({ s with
          status := setFlagIf (establishNZ s.status result) FLAG_CARRY
            (result &&& 0x0080 != 0),
          a := result % 256 }, [])
  | .AND =>
      let result := s.a &&& s.value
      ({ s with status := establishNZ s.status result, a := result % 256 }, [])
  | .ASL =>
      let result := (s.value * 2) % 65536
      WriteValue { s with status := establishNZ (establishC s.status result) result } result
  | .BCC => branchCond m FLAG_CARRY 0 s
  | .BCS => branchCond m FLAG_CARRY FLAG_CARRY s
  | .BEQ => branchCond m FLAG_ZERO FLAG_ZERO s
  | .BIT =>
      let result := s.a &&& s.value
      let st := establishZ s.status result
      let st := setFlagIf st FLAG_OVERFLOW (s.value &&& 0x40 != 0)
      ({ s with status := establishN st s.value }, [])
  | .BMI => branchCond m FLAG_SIGN FLAG_SIGN s
  | .BNE => branchCond m FLAG_ZERO 0 s
  | .BPL => branchCond m FLAG_SIGN 0 s
  | .BVC => branchCond m FLAG_OVERFLOW 0 s
  | .BVS => branchCond m FLAG_OVERFLOW FLAG_OVERFLOW s
  | .BRK => (s, [])
  | .CLC => ({ s with status := s.status &&& (255 - FLAG_CARRY) }, [])
  | .CLD => ({ s with status := s.status &&& (255 - FLAG_DECIMAL) }, [])
  | .CLI => ({ s with
      status := s.status &&& (255 - FLAG_INTERRUPT),
      CLIMaskingInterrupt := true }, [])
  | .CLV => ({ s with status := s.status &&& (255 - FLAG_OVERFLOW) }, [])
  | .CMP =>
      let result := (s.a + 65536 - s.value % 65536) % 65536
      let st := setFlagIf s.status FLAG_CARRY (decide (s.value % 256 ≤ s.a))
      let st := setFlagIf st FLAG_ZERO (s.a == s.value % 256)
      ({ s with status := establishN st result }, [])
  | .CPX =>
      let result := (s.x + 65536 - s.value % 65536) % 65536
      let st := setFlagIf s.status FLAG_CARRY (decide (s.value % 256 ≤ s.x))
      let st := setFlagIf st FLAG_ZERO (s.x == s.value % 256)
      ({ s with status := establishN st result }, [])
  | .CPY =>
      let result := (s.y + 65536 - s.value % 65536) % 65536
      let st := setFlagIf s.status FLAG_CARRY (decide (s.value % 256 ≤ s.y))
      let st := setFlagIf st FLAG_ZERO (s.y == s.value % 256)
      ({ s with status := establishN st result }, [])
  | .DEC =>
      let result := (s.value + 65535) % 65536
      WriteValue { s with status := establishNZ s.status result } result
  | .DEX =>
      let x1 := (s.x + 255) % 256
      ({ s with x := x1, status := establishNZ s.status x1 }, [])
  | .DEY =>
      let y1 := (s.y + 255) % 256
      ({ s with y := y1, status := establishNZ s.status y1 }, [])
  | .EOR =>
      let result := s.a ^^^ (s.value % 65536)
      ({ s with status := establishNZ s.status result, a := result % 256 }, [])
  | .INC =>
      let result := (s.value + 1) % 65536
      WriteValue { s with status := establishNZ s.status result } result
  | .INX =>
      let x1 := (s.x + 1) % 256
      ({ s with x := x1, status := establishNZ s.status x1 }, [])
  | .INY =>
      let y1 := (s.y + 1) % 256
      ({ s with y := y1, status := establishNZ s.status y1 }, [])
  | .JAM => (s, [])
  | .JMP => ({ s with pc := s.ea }, [])
  | .JSR => (s, [])
  | .LDA =>
      let v := s.value % 256
      ({ s with a := v, status := establishNZ s.status v }, [])
  | .LDX =>
      let v := s.value % 256
      ({ s with x := v, status := establishNZ s.status v }, [])
  | .LDY =>
      let v := s.value % 256
      ({ s with y := v, status := establishNZ s.status v }, [])
  | .LSR =>
      let result := s.value / 2
      let st := setFlagIf s.status FLAG_CARRY (s.value &&& 1 != 0)
      WriteValue { s with status := establishNZ st result } result
  | .NOP => (s, [])
  | .ORA =>
      let result := s.a ||| (s.value % 65536)
      ({ s with status := establishNZ s.status result, a := result % 256 }, [])
  | .PHA => Push s s.a
  | .PHP => Push s (s.status ||| FLAG_CONSTANT ||| FLAG_BREAK)
  | .PLA =>
      let r := Pull m s
      ({ r.1.1 with a := r.1.2, status := establishNZ r.1.1.status r.1.2 }, r.2)
  | .PLP =>
      let r := Pull m s
      ({ r.1.1 with status := r.1.2 ||| FLAG_CONSTANT }, r.2)
  | .ROL =>
      let result := (s.value * 2 + (s.status &&& FLAG_CARRY)) % 65536
      WriteValue { s with status := establishNZ (establishC s.status result) result } result
  | .ROR =>
      let result := s.value / 2 + (s.status &&& FLAG_CARRY) * 128
      let st := setFlagIf s.status FLAG_CARRY (s.value &&& 1 != 0)
      WriteValue { s with status := establishNZ st result } result
  | .RTI => (s, [])
  | .RTS => (s, [])
  | .SBC => (sbcBody s, [])
  | .SEC => ({ s with status := s.status ||| FLAG_CARRY }, [])
  | .SED => ({ s with status := s.status ||| FLAG_DECIMAL }, [])
  | .SEI => ({ s with status := s.status ||| FLAG_INTERRUPT }, [])
  | .STA => WriteValue s s.a
  | .STX => WriteValue s s.x
  | .STY => WriteValue s s.y
  | .TAX => ({ s with x := s.a, status := establishNZ s.status s.a }, [])
  | .TAY => ({ s with y := s.a, status := establishNZ s.status s.a }, [])
  | .TSX => ({ s with x := s.sp, status := establishNZ s.status s.sp }, [])
  | .TXA => ({ s with a := s.x, status := establishNZ s.status s.x }, [])
  | .TXS => ({ s with sp := s.x }, [])
  | .TYA => ({ s with a := s.y, status := establishNZ s.status s.y }, [])
  | .ASR =>
      let t := s.a &&& s.value
      let st := setFlagIf s.status FLAG_CARRY (t &&& 1 != 0)
      let result := t / 2
      ({ s with status := establishNZ st result, a := result % 256 }, [])
  | .LXA =>
      let result := (s.a ||| 0xEE) &&& s.value
      ({ s with
          status := establishNZ s.status result, x := result % 256,
          a := result % 256 }, [])
  | .ARR => (arrBody s, [])
  | .LAX =>
      let v := s.value % 256
      ({ s with
          a := v, x := v,
          status := establishNZ (establishNZ s.status v) v }, [])
  | .LAS =>
      let sp1 := s.sp &&& (s.value % 256)
      ({ s with
          sp := sp1, x := sp1, a := sp1,
          status := establishNZ s.status sp1 }, [])
  | .SAX => WriteValue s (s.a &&& s.x)
  | .SBX =>
      let result := ((s.a &&& s.x) + 65536 - s.value % 65536) % 65536
      let x1 := result &&& 0xff
      ({ s with
          x := x1,
          status := setFlagIf (establishNZ s.status x1) FLAG_CARRY
            (decide (result < 0x100)) }, [])
  | .SHA => WriteValue s (s.a &&& s.x &&& (s.ea / 256 + 1))
  | .SHY => WriteValue s ((s.ea / 256 + 1) &&& s.y)
  | .DCP =>
      let result := (s.value + 255) % 256
      let st := setFlagIf s.status FLAG_CARRY (decide (result ≤ s.a))
      let st := establishNZ st ((s.a + 65536 - result) % 65536)
      WriteValue { s with status := st } result
  | .ISB =>
      let v1 := (s.value + 1) % 256
      let r := WriteValue { s with value := v1 } v1
      (sbcBody r.1, r.2)
  | .SLO =>
      let result := (s.value * 2) % 65536
      let st := establishC s.status result
      let a1 := s.a ||| (result % 256)
      WriteValue { s with status := establishNZ st a1, a := a1 } result
  | .RLA =>
      let result := (s.value * 2 + (s.status &&& FLAG_CARRY)) % 65536
      let st := establishC s.status result
      let a1 := s.a &&& (result % 256)
      WriteValue { s with status := establishNZ st a1, a := a1 } result
  | .SRE =>
      let result := s.value / 2
      let st := setFlagIf s.status FLAG_CARRY (s.value &&& 1 != 0)
      let a1 := s.a ^^^ (result % 256)
      WriteValue { s with status := establishNZ st a1, a := a1 } result
  | .RRA =>
      let result := s.value / 2 + (s.status &&& FLAG_CARRY) * 128
      let st := setFlagIf s.status FLAG_CARRY (s.value &&& 1 != 0)
      let r := WriteValue { s with status := st } result
      (adcBody { r.1 with value := result % 256 }, r.2)
  | .SHS =>
      let result := s.a &&& s.x
      let r := WriteValue s (result &&& (s.ea / 256 + 1))
      ({ r.1 with sp := result % 256 }, r.2)
  | .SHX => WriteValue s ((s.ea / 256 + 1) &&& s.x)
  | .XAA =>
      let result := (s.a ||| 0xEE) &&& s.x &&& (s.value % 256)
      ({ s with status := establishNZ s.status result, a := result % 256 }, [])

/-- `ExecuteOpcode` (SSD1306.h l.320): invoke the current opcode body, then
point `addressModeCycleFn` at `InstructionFetch` for the next instruction.
The opcode body runs while `addressModeCycleFn` still holds the current stage
(that is what `WriteValue`'s accumulator-mode test inspects). -/
def ExecuteOpcode (m : MemFn) (s : CPU) : CPU × List BusOp :=
  let r := execOp m s.opcodeCycleFn s
  ({ r.1 with addressModeCycleFn := Stage.InstructionFetch }, r.2)

/-- Row $0 of the table (second opcode digit 0-F). -/
def t1Row0 : List Stage :=
  [   .brk_5_4_T1, .idx_2_4_T1, .sb_jam_T1, .idx_Undoc_T1, .zp_2_1_T1, .zp_2_1_T1, .zp_4_1_T1, .zp_4_1_T1,
   .ph_5_1_T1, .imm_2_1_T1, .sb_1_T1, .imm_2_1_T1, .abs_2_3_T1, .abs_2_3_T1, .abs_4_2_T1, .abs_4_2_T1 ]

/-- Row $1 of the table (second opcode digit 0-F). -/
def t1Row1 : List Stage :=
  [   .rel_5_8_T1, .idy_2_7_T1, .sb_jam_T1, .idy_Undoc_T1, .zpx_2_6_T1, .zpx_2_6_T1, .zpx_4_3_T1, .zpx_4_3_T1,
   .sb_1_T1, .absy_2_5_T1, .sb_1_T1, .absy_4_4_T1, .absx_2_5_T1, .absx_2_5_T1, .absx_4_4_T1, .absx_4_4_T1 ]

/-- Row $2 of the table (second opcode digit 0-F). -/
def t1Row2 : List Stage :=
  [   .jsr_5_3_T1, .idx_2_4_T1, .sb_jam_T1, .idx_Undoc_T1, .zp_2_1_T1, .zp_2_1_T1, .zp_4_1_T1, .zp_4_1_T1,
   .pl_5_2_T1, .imm_2_1_T1, .sb_1_T1, .imm_2_1_T1, .abs_2_3_T1, .abs_2_3_T1, .abs_4_2_T1, .abs_4_2_T1 ]

/-- Row $3 of the table (second opcode digit 0-F). -/
def t1Row3 : List Stage :=
  [   .rel_5_8_T1, .idy_2_7_T1, .sb_jam_T1, .idy_Undoc_T1, .zpx_2_6_T1, .zpx_2_6_T1, .zpx_4_3_T1, .zpx_4_3_T1,
   .sb_1_T1, .absy_2_5_T1, .sb_1_T1, .absy_4_4_T1, .absx_2_5_T1, .absx_2_5_T1, .absx_4_4_T1, .absx_4_4_T1 ]

/-- Row $4 of the table (second opcode digit 0-F). -/
def t1Row4 : List Stage :=
  [   .rti_5_5_T1, .idx_2_4_T1, .sb_jam_T1, .idx_Undoc_T1, .zp_2_1_T1, .zp_2_1_T1, .zp_4_1_T1, .zp_4_1_T1,
   .ph_5_1_T1, .imm_2_1_T1, .sb_1_T1, .imm_2_1_T1, .abs5_6_1_T1, .abs_2_3_T1, .abs_4_2_T1, .abs_4_2_T1 ]

/-- Row $5 of the table (second opcode digit 0-F). -/
def t1Row5 : List Stage :=
  [   .rel_5_8_T1, .idy_2_7_T1, .sb_jam_T1, .idy_Undoc_T1, .zpx_2_6_T1, .zpx_2_6_T1, .zpx_4_3_T1, .zpx_4_3_T1,
   .sb_1_T1, .absy_2_5_T1, .sb_1_T1, .absy_4_4_T1, .absx_2_5_T1, .absx_2_5_T1, .absx_4_4_T1, .absx_4_4_T1 ]

/-- Row $6 of the table (second opcode digit 0-F). -/
def t1Row6 : List Stage :=
  [   .rts_5_7_T1, .idx_2_4_T1, .sb_jam_T1, .idx_Undoc_T1, .zp_2_1_T1, .zp_2_1_T1, .zp_4_1_T1, .zp_4_1_T1,
   .pl_5_2_T1, .imm_2_1_T1, .sb_1_T1, .imm_2_1_T1, .abs5_6_2_T1, .abs_2_3_T1, .abs_4_2_T1, .abs_4_2_T1 ]

/-- Row $7 of the table (second opcode digit 0-F). -/
def t1Row7 : List Stage :=
  [   .rel_5_8_T1, .idy_2_7_T1, .sb_jam_T1, .idy_Undoc_T1, .zpx_2_6_T1, .zpx_2_6_T1, .zpx_4_3_T1, .zpx_4_3_T1,
   .sb_1_T1, .absy_2_5_T1, .sb_1_T1, .absy_4_4_T1, .absx_2_5_T1, .absx_2_5_T1, .absx_4_4_T1, .absx_4_4_T1 ]

/-- Row $8 of the table (second opcode digit 0-F). -/
def t1Row8 : List Stage :=
  [   .imm_2_1_T1, .idx_3_3_T1, .imm_2_1_T1, .idx_3_3_T1, .zp_3_1_T1, .zp_3_1_T1, .zp_3_1_T1, .zp_3_1_T1,
   .sb_1_T1, .imm_2_1_T1, .sb_1_T1, .imm_2_1_T1, .abs_3_2_T1, .abs_3_2_T1, .abs_3_2_T1, .abs_3_2_T1 ]

/-- Row $9 of the table (second opcode digit 0-F). -/
def t1Row9 : List Stage :=
  [   .rel_5_8_T1, .idy_3_6_T1, .sb_jam_T1, .idy_3_6_T1, .zpx_3_5_T1, .zpx_3_5_T1, .zpy_3_5_T1, .zpy_3_5_T1,
   .sb_1_T1, .absy_3_4_T1, .sb_1_T1, .absy_3_4_T1, .absx_3_4_T1, .absx_3_4_T1, .absy_3_4_T1, .absy_3_4_T1 ]

/-- Row $A of the table (second opcode digit 0-F). -/
def t1RowA : List Stage :=
  [   .imm_2_1_T1, .idx_2_4_T1, .imm_2_1_T1, .idx_2_4_T1, .zp_2_1_T1, .zp_2_1_T1, .zp_2_1_T1, .zp_2_1_T1,
   .sb_1_T1, .imm_2_1_T1, .sb_1_T1, .imm_2_1_T1, .abs_2_3_T1, .abs_2_3_T1, .abs_2_3_T1, .abs_2_3_T1 ]

/-- Row $B of the table (second opcode digit 0-F). -/
def t1RowB : List Stage :=
  [   .rel_5_8_T1, .idy_2_7_T1, .sb_jam_T1, .idy_2_7_T1, .zpx_2_6_T1, .zpx_2_6_T1, .zpy_2_6_T1, .zpy_2_6_T1,
   .sb_1_T1, .absy_2_5_T1, .sb_1_T1, .absy_2_5_T1, .absx_2_5_T1, .absx_2_5_T1, .absy_2_5_T1, .absy_2_5_T1 ]

/-- Row $C of the table (second opcode digit 0-F). -/
def t1RowC : List Stage :=
  [   .imm_2_1_T1, .idx_2_4_T1, .imm_2_1_T1, .idx_Undoc_T1, .zp_2_1_T1, .zp_2_1_T1, .zp_4_1_T1, .zp_4_1_T1,
   .sb_1_T1, .imm_2_1_T1, .sb_1_T1, .imm_2_1_T1, .abs_2_3_T1, .abs_2_3_T1, .abs_4_2_T1, .abs_4_2_T1 ]

/-- Row $D of the table (second opcode digit 0-F). -/
def t1RowD : List Stage :=
  [   .rel_5_8_T1, .idy_2_7_T1, .sb_jam_T1, .idy_Undoc_T1, .zpx_2_6_T1, .zpx_2_6_T1, .zpx_4_3_T1, .zpx_4_3_T1,
   .sb_1_T1, .absy_2_5_T1, .sb_1_T1, .absy_4_4_T1, .absx_2_5_T1, .absx_2_5_T1, .absx_4_4_T1, .absx_4_4_T1 ]

/-- Row $E of the table (second opcode digit 0-F). -/
def t1RowE : List Stage :=
  [   .imm_2_1_T1, .idx_2_4_T1, .imm_2_1_T1, .idx_Undoc_T1, .zp_2_1_T1, .zp_2_1_T1, .zp_4_1_T1, .zp_4_1_T1,
   .sb_1_T1, .imm_2_1_T1, .sb_1_T1, .imm_2_1_T1, .abs_2_3_T1, .abs_2_3_T1, .abs_4_2_T1, .abs_4_2_T1 ]

/-- Row $F of the table (second opcode digit 0-F). -/
def t1RowF : List Stage :=
  [   .rel_5_8_T1, .idy_2_7_T1, .sb_jam_T1, .idy_Undoc_T1, .zpx_2_6_T1, .zpx_2_6_T1, .zpx_4_3_T1, .zpx_4_3_T1,
   .sb_1_T1, .absy_2_5_T1, .sb_1_T1, .absy_4_4_T1, .absx_2_5_T1, .absx_2_5_T1, .absx_4_4_T1, .absx_4_4_T1 ]

/-- Modelled from the spec: the 256-entry table
`M6502::T1AddressModeFunctions` (declared SSD1306.h l.274) is initialised in
the `M6502` translation unit absent from this repository snapshot.  Spec
sections 2, 4.2-4.4 define the dispatcher as the standard 6502 opcode matrix
(all 151 documented opcodes plus the listed undocumented set), mapping each
opcode byte to the T1 stage of its address mode: single-byte/accumulator
instructions to `sb_1_T1`, JAM opcodes to `sb_jam_T1`, immediates to
`imm_2_1_T1`, branches to `rel_5_8_T1`, and the read / write / RMW variant of
each memory mode to the corresponding stage chain of the header. -/
def T1list : List Stage :=
  t1Row0 ++ t1Row1 ++ t1Row2 ++ t1Row3 ++ t1Row4 ++ t1Row5 ++ t1Row6 ++
  t1Row7 ++ t1Row8 ++ t1Row9 ++ t1RowA ++ t1RowB ++ t1RowC ++ t1RowD ++
  t1RowE ++ t1RowF


/-- Table lookup `T1AddressModeFunctions[opcode]`. -/
def T1AddressModeFunctions (k : Nat) : Stage := T1list.getD k .sb_jam_T1

/-- Row $0 of the table (second opcode digit 0-F). -/
def opRow0 : List Op :=
  [   .BRK, .ORA, .JAM, .SLO, .NOP, .ORA, .ASL, .SLO, .PHP, .ORA, .ASL, .ANC, .NOP, .ORA, .ASL, .SLO ]

/-- Row $1 of the table (second opcode digit 0-F). -/
def opRow1 : List Op :=
  [   .BPL, .ORA, .JAM, .SLO, .NOP, .ORA, .ASL, .SLO, .CLC, .ORA, .NOP, .SLO, .NOP, .ORA, .ASL, .SLO ]

/-- Row $2 of the table (second opcode digit 0-F). -/
def opRow2 : List Op :=
  [   .JSR, .AND, .JAM, .RLA, .BIT, .AND, .ROL, .RLA, .PLP, .AND, .ROL, .ANC, .BIT, .AND, .ROL, .RLA ]

/-- Row $3 of the table (second opcode digit 0-F). -/
def opRow3 : List Op :=
  [   .BMI, .AND, .JAM, .RLA, .NOP, .AND, .ROL, .RLA, .SEC, .AND, .NOP, .RLA, .NOP, .AND, .ROL, .RLA ]

/-- Row $4 of the table (second opcode digit 0-F). -/
def opRow4 : List Op :=
  [   .RTI, .EOR, .JAM, .SRE, .NOP, .EOR, .LSR, .SRE, .PHA, .EOR, .LSR, .ASR, .JMP, .EOR, .LSR, .SRE ]

/-- Row $5 of the table (second opcode digit 0-F). -/
def opRow5 : List Op :=
  [   .BVC, .EOR, .JAM, .SRE, .NOP, .EOR, .LSR, .SRE, .CLI, .EOR, .NOP, .SRE, .NOP, .EOR, .LSR, .SRE ]

/-- Row $6 of the table (second opcode digit 0-F). -/
def opRow6 : List Op :=
  [   .RTS, .ADC, .JAM, .RRA, .NOP, .ADC, .ROR, .RRA, .PLA, .ADC, .ROR, .ARR, .JMP, .ADC, .ROR, .RRA ]

/-- Row $7 of the table (second opcode digit 0-F). -/
def opRow7 : List Op :=
  [   .BVS, .ADC, .JAM, .RRA, .NOP, .ADC, .ROR, .RRA, .SEI, .ADC, .NOP, .RRA, .NOP, .ADC, .ROR, .RRA ]

/-- Row $8 of the table (second opcode digit 0-F). -/
def opRow8 : List Op :=
  [   .NOP, .STA, .NOP, .SAX, .STY, .STA, .STX, .SAX, .DEY, .NOP, .TXA, .XAA, .STY, .STA, .STX, .SAX ]

/-- Row $9 of the table (second opcode digit 0-F). -/
def opRow9 : List Op :=
  [   .BCC, .STA, .JAM, .SHA, .STY, .STA, .STX, .SAX, .TYA, .STA, .TXS, .SHS, .SHY, .STA, .SHX, .SHA ]

/-- Row $A of the table (second opcode digit 0-F). -/
def opRowA : List Op :=
  [   .LDY, .LDA, .LDX, .LAX, .LDY, .LDA, .LDX, .LAX, .TAY, .LDA, .TAX, .LXA, .LDY, .LDA, .LDX, .LAX ]

/-- Row $B of the table (second opcode digit 0-F). -/
def opRowB : List Op :=
  [   .BCS, .LDA, .JAM, .LAX, .LDY, .LDA, .LDX, .LAX, .CLV, .LDA, .TSX, .LAS, .LDY, .LDA, .LDX, .LAX ]

/-- Row $C of the table (second opcode digit 0-F). -/
def opRowC : List Op :=
  [   .CPY, .CMP, .NOP, .DCP, .CPY, .CMP, .DEC, .DCP, .INY, .CMP, .DEX, .SBX, .CPY, .CMP, .DEC, .DCP ]

/-- Row $D of the table (second opcode digit 0-F). -/
def opRowD : List Op :=
  [   .BNE, .CMP, .JAM, .DCP, .NOP, .CMP, .DEC, .DCP, .CLD, .CMP, .NOP, .DCP, .NOP, .CMP, .DEC, .DCP ]

/-- Row $E of the table (second opcode digit 0-F). -/
def opRowE : List Op :=
  [   .CPX, .SBC, .NOP, .ISB, .CPX, .SBC, .INC, .ISB, .INX, .SBC, .NOP, .SBC, .CPX, .SBC, .INC, .ISB ]

/-- Row $F of the table (second opcode digit 0-F). -/
def opRowF : List Op :=
  [   .BEQ, .SBC, .JAM, .ISB, .NOP, .SBC, .INC, .ISB, .SED, .SBC, .NOP, .ISB, .NOP, .SBC, .INC, .ISB ]

/-- Modelled from the spec: the 256-entry table `M6502::opcodeFunctions`
(declared SSD1306.h l.276) is initialised in the absent translation unit.
Standard 6502 opcode matrix, documented plus undocumented bodies as listed in
spec sections 1 and 4.4. -/
def opList : List Op :=
  opRow0 ++ opRow1 ++ opRow2 ++ opRow3 ++ opRow4 ++ opRow5 ++ opRow6 ++
  opRow7 ++ opRow8 ++ opRow9 ++ opRowA ++ opRowB ++ opRowC ++ opRowD ++
  opRowE ++ opRowF


/-- Table lookup `opcodeFunctions[opcode]`. -/
def opcodeFunctions (k : Nat) : Op := opList.getD k .JAM

/-- Modelled from the spec: the body of `M6502::InstructionFetch` (declared
SSD1306.h l.333) lives in the absent translation unit.  Spec sections 4.2 and
4.6: at the fetch entry the CPU polls the interrupt lines; if IRQ is asserted
while I = 0 and neither `CLIMaskingInterrupt` nor
`BranchTakenMaskingInterrupt` is set, the cycle performs a dummy read of `pc`
and enters the 7-cycle IRQ sequence; otherwise it reads the opcode byte at
`pc`, increments `pc`, looks the opcode up in both 256-entry tables, assigns
the two cursors, and clears the two one-instruction masking latches.
`InstructionFetchIRQ` (SSD1306.h l.336) differs from `InstructionFetch` only
in its NMI handling, and NMI support is compiled out here. -/
def instructionFetchCycle (m : MemFn) (s : CPU) : CPU × List BusOp :=
  if s.IRQAsserted && (s.status &&& FLAG_INTERRUPT == 0)
      && !s.CLIMaskingInterrupt && !s.BranchTakenMaskingInterrupt then
    ({ s with IRQPending := true, addressModeCycleFn := Stage.IRQ_T1 },
     [BusOp.read s.pc])
  else
    let k := m s.pc % 256
    ({ s with
        opcode := k, pc := (s.pc + 1) % 65536,
        addressModeCycleFn := T1AddressModeFunctions k,
        opcodeCycleFn := opcodeFunctions k,
        CLIMaskingInterrupt := false, BranchTakenMaskingInterrupt := false },
     [BusOp.read s.pc])

/-- Modelled from the spec: the body of `M6502::rel_5_8_T2` (declared
SSD1306.h l.431) lives in the absent translation unit.  Spec section 4.5: the
cycle performs a dummy read at the partially-computed target (`pc` holds
`(oldpc & 0xff00) | ((oldpc + ra) & 0xff)` from the T1 branch macro); if the
true target `oldpc + ra` is on the same page the instruction ends (3 cycles)
and `BranchTakenMaskingInterrupt` is set so the interrupt poll at the next
fetch skips once; on a page cross `pc` is corrected and one more cycle
(`rel_5_8_T3`) follows. -/
def rel_5_8_T2_cycle (s : CPU) : CPU × List BusOp :=
  (if (s.ia + s.ea) % 65536 = s.pc then
    { s with
      BranchTakenMaskingInterrupt := true,
      addressModeCycleFn := Stage.InstructionFetch }
   else { s with pc := (s.ia + s.ea) % 65536, addressModeCycleFn := Stage.rel_5_8_T3 },
   [BusOp.read s.pc])

/-- Modelled from the spec: the body of `M6502::absx_2_5_T3` (declared
SSD1306.h l.471, comment `4/5 cycles`) lives in the absent translation unit.
Spec section 4.3, absolute,X read: when the indexed address stays on the base
page the cycle reads the operand there and executes (4 cycles total);
otherwise it performs the dummy read at the wrong-page address
`(base & 0xff00) | ((base + x) & 0xff)`, fixes `ea`, and chains to the
5th-cycle read `absx_2_5_T4`. -/
def absx_2_5_T3_cycle (m : MemFn) (s : CPU) : CPU × List BusOp :=
  if s.ea % 256 + s.x < 256 then
    let e := s.ea + s.x
    let r := ExecuteOpcode m { s with ea := e, value := m e % 256 }
    (r.1, BusOp.read e :: r.2)
  else
    let wrong := (s.ea / 256) * 256 + (s.ea % 256 + s.x) % 256
    ({ s with ea := (s.ea + s.x) % 65536, addressModeCycleFn := Stage.absx_2_5_T4 },
     [BusOp.read wrong])

/-- Modelled from the spec: the body of `M6502::absy_2_5_T3` (declared
SSD1306.h l.481), the absolute,Y twin of `absx_2_5_T3`. -/
def absy_2_5_T3_cycle (m : MemFn) (s : CPU) : CPU × List BusOp :=
  if s.ea % 256 + s.y < 256 then
    let e := s.ea + s.y
    let r := ExecuteOpcode m { s with ea := e, value := m e % 256 }
    (r.1, BusOp.read e :: r.2)
  else
    let wrong := (s.ea / 256) * 256 + (s.ea % 256 + s.y) % 256
    ({ s with ea := (s.ea + s.y) % 65536, addressModeCycleFn := Stage.absy_2_5_T4 },
     [BusOp.read wrong])

/-- Modelled from the spec: the body of `M6502::idy_2_7_T4` (declared
SSD1306.h l.508, comment `5/6 cycles`), the (zp),Y-read page-cross cycle,
analogous to `absx_2_5_T3` with index `y`. -/
def idy_2_7_T4_cycle (m : MemFn) (s : CPU) : CPU × List BusOp :=
  if s.ea % 256 + s.y < 256 then
    let e := s.ea + s.y
    let r := ExecuteOpcode m { s with ea := e, value := m e % 256 }
    (r.1, BusOp.read e :: r.2)
  else
    let wrong := (s.ea / 256) * 256 + (s.ea % 256 + s.y) % 256
    ({ s with ea := (s.ea + s.y) % 65536, addressModeCycleFn := Stage.idy_2_7_T5 },
     [BusOp.read wrong])

/-- Modelled from the spec: the body of `M6502::brk_5_4_T4` (declared
SSD1306.h l.595) lives in the absent translation unit.  Spec section 4.6 step
4 (with NMI support compiled out, no morphing can occur): push the status
byte with B set for BRK, then continue to the vector reads (`SetI` happens at
`brk_5_4_T6` in the header). -/
def brk_5_4_T4_cycle (s : CPU) : CPU × List BusOp :=
  let r := Push s (s.status ||| FLAG_BREAK)
  ({ r.1 with addressModeCycleFn := Stage.brk_5_4_T5 }, r.2)

/-- Modelled from the spec: the body of `M6502::IRQ_T4` (declared SSD1306.h
l.620) lives in the absent translation unit.  With NMI support compiled out no
morph into NMI can occur, so the cycle mirrors the header's `NMI_T4`
(SSD1306.h l.611): clear B in the register, push the status byte, set I, and
continue to the vector reads. -/
def IRQ_T4_cycle (s : CPU) : CPU × List BusOp :=
  let st := s.status &&& (255 - FLAG_BREAK)
  let r := Push { s with status := st } st
  ({ r.1 with status := st ||| FLAG_INTERRUPT, addressModeCycleFn := Stage.IRQ_T5 },
   r.2)

/-- One emulated cycle for each address-mode stage, translated line by line
from the inline bodies of SSD1306.h l.425-623 (the stages whose bodies are not
in the header are delegated to the `Modelled from the spec` definitions
above).  Returns the updated CPU state and the bus transactions of the cycle,
in order. -/
def runStage (m : MemFn) (s : CPU) : Stage → CPU × List BusOp
  | .InstructionFetch => instructionFetchCycle m s
  | .InstructionFetchIRQ => instructionFetchCycle m s
  | .sb_1_T1 =>
      let r := ExecuteOpcode m { s with value := s.a }
      (r.1, BusOp.read s.pc :: r.2)
  | .sb_jam_T1 =>
      let r := ExecuteOpcode m s
      (r.1, BusOp.read s.pc :: r.2)
  | .imm_2_1_T1 =>
      let r := ExecuteOpcode m { s with value := m s.pc % 256, pc := (s.pc + 1) % 65536 }
      (r.1, BusOp.read s.pc :: r.2)
  | .rel_5_8_T1 => execOp m s.opcodeCycleFn s
  | .rel_5_8_T2 => rel_5_8_T2_cycle s
  | .rel_5_8_T3 => ({ s with addressModeCycleFn := .InstructionFetch }, [BusOp.read s.pc])
  | .zp_2_1_T1 =>
      ({ s with ea := m s.pc % 256, pc := (s.pc + 1) % 65536,
                addressModeCycleFn := .zp_2_1_T2 }, [BusOp.read s.pc])
  | .zp_2_1_T2 =>
      let r := ExecuteOpcode m { s with value := m s.ea % 256 }
      (r.1, BusOp.read s.ea :: r.2)
  | .zp_3_1_T1 =>
      ({ s with ea := m s.pc % 256, pc := (s.pc + 1) % 65536,
                addressModeCycleFn := .zp_3_1_T2 }, [BusOp.read s.pc])
  | .zp_3_1_T2 => ExecuteOpcode m s
  | .abs_2_3_T1 =>
      ({ s with ea := m s.pc % 256, pc := (s.pc + 1) % 65536,
                addressModeCycleFn := .abs_2_3_T2 }, [BusOp.read s.pc])
  | .abs_2_3_T2 =>
      ({ s with ea := s.ea ||| 256 * (m s.pc % 256), pc := (s.pc + 1) % 65536,
                addressModeCycleFn := .abs_2_3_T3 }, [BusOp.read s.pc])
  | .abs_2_3_T3 =>
      let r := ExecuteOpcode m { s with value := m s.ea % 256 }
      (r.1, BusOp.read s.ea :: r.2)
  | .abs_3_2_T1 =>
      ({ s with ea := m s.pc % 256, pc := (s.pc + 1) % 65536,
                addressModeCycleFn := .abs_3_2_T2 }, [BusOp.read s.pc])
  | .abs_3_2_T2 =>
      ({ s with ea := s.ea ||| 256 * (m s.pc % 256), pc := (s.pc + 1) % 65536,
                addressModeCycleFn := .abs_3_2_T3 }, [BusOp.read s.pc])
  | .abs_3_2_T3 => ExecuteOpcode m s
  | .idx_2_4_T1 =>
      ({ s with ia := m s.pc % 256, pc := (s.pc + 1) % 65536,
                addressModeCycleFn := .idx_2_4_T2 }, [BusOp.read s.pc])
  | .idx_2_4_T2 => ({ s with addressModeCycleFn := .idx_2_4_T3 }, [BusOp.read s.ia])
  | .idx_2_4_T3 =>
      let i := (s.ia + s.x) % 256
      ({ s with ia := (i + 1) % 65536, ea := m i % 256,
                addressModeCycleFn := .idx_2_4_T4 }, [BusOp.read i])
  | .idx_2_4_T4 =>
      ({ s with ea := s.ea ||| 256 * (m (s.ia % 256) % 256),
                addressModeCycleFn := .idx_2_4_T5 }, [BusOp.read (s.ia % 256)])
  | .idx_2_4_T5 =>
      let r := ExecuteOpcode m { s with value := m s.ea % 256 }
      (r.1, BusOp.read s.ea :: r.2)
  | .idx_3_3_T1 =>
      ({ s with ia := m s.pc % 256, pc := (s.pc + 1) % 65536,
                addressModeCycleFn := .idx_3_3_T2 }, [BusOp.read s.pc])
  | .idx_3_3_T2 => ({ s with addressModeCycleFn := .idx_3_3_T3 }, [BusOp.read s.ia])
  | .idx_3_3_T3 =>
      let i := (s.ia + s.x) % 256
      ({ s with ia := (i + 1) % 65536, ea := m i % 256,
                addressModeCycleFn := .idx_3_3_T4 }, [BusOp.read i])
  | .idx_3_3_T4 =>
      ({ s with ea := s.ea ||| 256 * (m (s.ia % 256) % 256),
                addressModeCycleFn := .idx_3_3_T5 }, [BusOp.read (s.ia % 256)])
  | .idx_3_3_T5 => ExecuteOpcode m s
  | .idx_Undoc_T1 =>
      ({ s with ia := m s.pc % 256, pc := (s.pc + 1) % 65536,
                addressModeCycleFn := .idx_Undoc_T2 }, [BusOp.read s.pc])
  | .idx_Undoc_T2 => ({ s with addressModeCycleFn := .idx_Undoc_T3 }, [BusOp.read s.ia])
  | .idx_Undoc_T3 =>
      let i := (s.ia + s.x) % 256
      ({ s with ia := (i + 1) % 65536, ea := m i % 256,
                addressModeCycleFn := .idx_Undoc_T4 }, [BusOp.read i])
  | .idx_Undoc_T4 =>
      ({ s with ea := s.ea ||| 256 * (m (s.ia % 256) % 256),
                addressModeCycleFn := .idx_Undoc_T5 }, [BusOp.read (s.ia % 256)])
  | .idx_Undoc_T5 =>
      ({ s with value := m s.ea % 256, addressModeCycleFn := .idx_Undoc_T6 },
       [BusOp.read s.ea])
  | .idx_Undoc_T6 =>
      ({ s with addressModeCycleFn := .idx_Undoc_T7 },
       [BusOp.write s.ea (s.value % 256)])
  | .idx_Undoc_T7 => ExecuteOpcode m s
  | .absx_2_5_T1 =>
      ({ s with ea := m s.pc % 256, pc := (s.pc + 1) % 65536,
                addressModeCycleFn := .absx_2_5_T2 }, [BusOp.read s.pc])
  | .absx_2_5_T2 =>
      ({ s with ea := s.ea ||| 256 * (m s.pc % 256), pc := (s.pc + 1) % 65536,
                addressModeCycleFn := .absx_2_5_T3 }, [BusOp.read s.pc])
  | .absx_2_5_T3 => absx_2_5_T3_cycle m s
  | .absx_2_5_T4 =>
      let r := ExecuteOpcode m { s with value := m s.ea % 256 }
      (r.1, BusOp.read s.ea :: r.2)
  | .absx_3_4_T1 =>
      ({ s with ea := m s.pc % 256, pc := (s.pc + 1) % 65536,
                addressModeCycleFn := .absx_3_4_T2 }, [BusOp.read s.pc])
  | .absx_3_4_T2 =>
      ({ s with ea := s.ea ||| 256 * (m s.pc % 256), pc := (s.pc + 1) % 65536,
                addressModeCycleFn := .absx_3_4_T3 }, [BusOp.read s.pc])
  | .absx_3_4_T3 =>
      ({ s with ea := (s.ea + s.x) % 65536, addressModeCycleFn := .absx_3_4_T4 },
       [BusOp.read s.ea])
  | .absx_3_4_T4 => ExecuteOpcode m s
  | .absy_2_5_T1 =>
      ({ s with ea := m s.pc % 256, pc := (s.pc + 1) % 65536,
                addressModeCycleFn := .absy_2_5_T2 }, [BusOp.read s.pc])
  | .absy_2_5_T2 =>
      ({ s with ea := s.ea ||| 256 * (m s.pc % 256), pc := (s.pc + 1) % 65536,
                addressModeCycleFn := .absy_2_5_T3 }, [BusOp.read s.pc])
  | .absy_2_5_T3 => absy_2_5_T3_cycle m s
  | .absy_2_5_T4 =>
      let r := ExecuteOpcode m { s with value := m s.ea % 256 }
      (r.1, BusOp.read s.ea :: r.2)
  | .absy_3_4_T1 =>
      ({ s with ea := m s.pc % 256, pc := (s.pc + 1) % 65536,
                addressModeCycleFn := .absy_3_4_T2 }, [BusOp.read s.pc])
  | .absy_3_4_T2 =>
      ({ s with ea := s.ea ||| 256 * (m s.pc % 256), pc := (s.pc + 1) % 65536,
                addressModeCycleFn := .absy_3_4_T3 }, [BusOp.read s.pc])
  | .absy_3_4_T3 =>
      ({ s with ea := (s.ea + s.y) % 65536, addressModeCycleFn := .absy_3_4_T4 },
       [BusOp.read s.ea])
  | .absy_3_4_T4 => ExecuteOpcode m s
  | .zpx_2_6_T1 =>
      ({ s with ea := m s.pc % 256, pc := (s.pc + 1) % 65536,
                addressModeCycleFn := .zpx_2_6_T2 }, [BusOp.read s.pc])
  | .zpx_2_6_T2 => ({ s with addressModeCycleFn := .zpx_2_6_T3 }, [BusOp.read s.ea])
  | .zpx_2_6_T3 =>
      let e := (s.ea + s.x) % 256
      let r := ExecuteOpcode m { s with ea := e, value := m e % 256 }
      (r.1, BusOp.read e :: r.2)
  | .zpx_3_5_T1 =>
      ({ s with ea := m s.pc % 256, pc := (s.pc + 1) % 65536,
                addressModeCycleFn := .zpx_3_5_T2 }, [BusOp.read s.pc])
  | .zpx_3_5_T2 => ({ s with addressModeCycleFn := .zpx_3_5_T3 }, [BusOp.read s.ea])
  | .zpx_3_5_T3 => ExecuteOpcode m { s with ea := (s.ea + s.x) % 256 }
  | .zpy_2_6_T1 =>
      ({ s with ea := m s.pc % 256, pc := (s.pc + 1) % 65536,
                addressModeCycleFn := .zpy_2_6_T2 }, [BusOp.read s.pc])
  | .zpy_2_6_T2 => ({ s with addressModeCycleFn := .zpy_2_6_T3 }, [BusOp.read s.ea])
  | .zpy_2_6_T3 =>
      let e := (s.ea + s.y) % 256
      let r := ExecuteOpcode m { s with ea := e, value := m e % 256 }
      (r.1, BusOp.read e :: r.2)
  | .zpy_3_5_T1 =>
      ({ s with ea := m s.pc % 256, pc := (s.pc + 1) % 65536,
                addressModeCycleFn := .zpy_3_5_T2 }, [BusOp.read s.pc])
  | .zpy_3_5_T2 => ({ s with addressModeCycleFn := .zpy_3_5_T3 }, [BusOp.read s.ea])
  | .zpy_3_5_T3 => ExecuteOpcode m { s with ea := (s.ea + s.y) % 256 }
  | .idy_2_7_T1 =>
      ({ s with ia := m s.pc % 256, pc := (s.pc + 1) % 65536,
                addressModeCycleFn := .idy_2_7_T2 }, [BusOp.read s.pc])
  | .idy_2_7_T2 =>
      ({ s with ea := m s.ia % 256, ia := (s.ia + 1) % 65536,
                addressModeCycleFn := .idy_2_7_T3 }, [BusOp.read s.ia])
  | .idy_2_7_T3 =>
      ({ s with ea := s.ea ||| 256 * (m (s.ia % 256) % 256),
                addressModeCycleFn := .idy_2_7_T4 }, [BusOp.read (s.ia % 256)])
  | .idy_2_7_T4 => idy_2_7_T4_cycle m s
  | .idy_2_7_T5 =>
      let r := ExecuteOpcode m { s with value := m s.ea % 256 }
      (r.1, BusOp.read s.ea :: r.2)
  | .idy_3_6_T1 =>
      ({ s with ia := m s.pc % 256, pc := (s.pc + 1) % 65536,
                addressModeCycleFn := .idy_3_6_T2 }, [BusOp.read s.pc])
  | .idy_3_6_T2 =>
      ({ s with ea := m s.ia % 256, ia := (s.ia + 1) % 65536,
                addressModeCycleFn := .idy_3_6_T3 }, [BusOp.read s.ia])
  | .idy_3_6_T3 =>
      ({ s with ea := s.ea ||| 256 * (m (s.ia % 256) % 256),
                addressModeCycleFn := .idy_3_6_T4 }, [BusOp.read (s.ia % 256)])
  | .idy_3_6_T4 =>
      let e := (s.ea + s.y) % 65536
      ({ s with ea := e, addressModeCycleFn := .idy_3_6_T5 }, [BusOp.read e])
  | .idy_3_6_T5 => ExecuteOpcode m s
  | .idy_Undoc_T1 =>
      ({ s with ia := m s.pc % 256, pc := (s.pc + 1) % 65536,
                addressModeCycleFn := .idy_Undoc_T2 }, [BusOp.read s.pc])
  | .idy_Undoc_T2 =>
      ({ s with ea := m s.ia % 256, ia := (s.ia + 1) % 65536,
                addressModeCycleFn := .idy_Undoc_T3 }, [BusOp.read s.ia])
  | .idy_Undoc_T3 =>
      ({ s with ea := s.ea ||| 256 * (m (s.ia % 256) % 256),
                addressModeCycleFn := .idy_Undoc_T4 }, [BusOp.read (s.ia % 256)])
  | .idy_Undoc_T4 =>
      let e := (s.ea + s.y) % 65536
      ({ s with ea := e, addressModeCycleFn := .idy_Undoc_T5 }, [BusOp.read e])
  | .idy_Undoc_T5 =>
      ({ s with value := m s.ea % 256, addressModeCycleFn := .idy_Undoc_T6 },
       [BusOp.read s.ea])
  | .idy_Undoc_T6 =>
      ({ s with addressModeCycleFn := .idy_Undoc_T7 },
       [BusOp.write s.ea (s.value % 256)])
  | .idy_Undoc_T7 => ExecuteOpcode m s
  | .zp_4_1_T1 =>
      ({ s with ea := m s.pc % 256, pc := (s.pc + 1) % 65536,
                addressModeCycleFn := .zp_4_1_T2 }, [BusOp.read s.pc])
  | .zp_4_1_T2 =>
      ({ s with value := m s.ea % 256, addressModeCycleFn := .zp_4_1_T3 },
       [BusOp.read s.ea])
  | .zp_4_1_T3 =>
      ({ s with addressModeCycleFn := .zp_4_1_T4 },
       [BusOp.write s.ea (s.value % 256)])
  | .zp_4_1_T4 => ExecuteOpcode m s
  | .abs_4_2_T1 =>
      ({ s with ea := m s.pc % 256, pc := (s.pc + 1) % 65536,
                addressModeCycleFn := .abs_4_2_T2 }, [BusOp.read s.pc])
  | .abs_4_2_T2 =>
      ({ s with ea := s.ea ||| 256 * (m s.pc % 256), pc := (s.pc + 1) % 65536,
                addressModeCycleFn := .abs_4_2_T3 }, [BusOp.read s.pc])
  | .abs_4_2_T3 =>
      ({ s with value := m s.ea % 256, addressModeCycleFn := .abs_4_2_T4 },
       [BusOp.read s.ea])
  | .abs_4_2_T4 =>
      ({ s with addressModeCycleFn := .abs_4_2_T5 },
       [BusOp.write s.ea (s.value % 256)])
  | .abs_4_2_T5 => ExecuteOpcode m s
  | .zpx_4_3_T1 =>
      ({ s with ea := m s.pc % 256, pc := (s.pc + 1) % 65536,
                addressModeCycleFn := .zpx_4_3_T2 }, [BusOp.read s.pc])
  | .zpx_4_3_T2 => ({ s with addressModeCycleFn := .zpx_4_3_T3 }, [BusOp.read s.ea])
  | .zpx_4_3_T3 =>
      let e := (s.ea + s.x) % 256
      ({ s with ea := e, value := m e % 256, addressModeCycleFn := .zpx_4_3_T4 },
       [BusOp.read e])
  | .zpx_4_3_T4 =>
      ({ s with addressModeCycleFn := .zpx_4_3_T5 },
       [BusOp.write s.ea (s.value % 256)])
  | .zpx_4_3_T5 => ExecuteOpcode m s
  | .absx_4_4_T1 =>
      ({ s with ea := m s.pc % 256, pc := (s.pc + 1) % 65536,
                addressModeCycleFn := .absx_4_4_T2 }, [BusOp.read s.pc])
  | .absx_4_4_T2 =>
      ({ s with ea := s.ea ||| 256 * (m s.pc % 256), pc := (s.pc + 1) % 65536,
                addressModeCycleFn := .absx_4_4_T3 }, [BusOp.read s.pc])
  | .absx_4_4_T3 =>
      let e := (s.ea + s.x) % 65536
      ({ s with ea := e, addressModeCycleFn := .absx_4_4_T4 }, [BusOp.read e])
  | .absx_4_4_T4 =>
      ({ s with value := m s.ea % 256, addressModeCycleFn := .absx_4_4_T5 },
       [BusOp.read s.ea])
  | .absx_4_4_T5 =>
      ({ s with addressModeCycleFn := .absx_4_4_T6 },
       [BusOp.write s.ea (s.value % 256)])
  | .absx_4_4_T6 => ExecuteOpcode m s
  | .absy_4_4_T1 =>
      ({ s with ea := m s.pc % 256, pc := (s.pc + 1) % 65536,
                addressModeCycleFn := .absy_4_4_T2 }, [BusOp.read s.pc])
  | .absy_4_4_T2 =>
      ({ s with ea := s.ea ||| 256 * (m s.pc % 256), pc := (s.pc + 1) % 65536,
                addressModeCycleFn := .absy_4_4_T3 }, [BusOp.read s.pc])
  | .absy_4_4_T3 =>
      let e := (s.ea + s.y) % 65536
      ({ s with ea := e, addressModeCycleFn := .absy_4_4_T4 }, [BusOp.read e])
  | .absy_4_4_T4 =>
      ({ s with value := m s.ea % 256, addressModeCycleFn := .absy_4_4_T5 },
       [BusOp.read s.ea])
  | .absy_4_4_T5 =>
      ({ s with addressModeCycleFn := .absy_4_4_T6 },
       [BusOp.write s.ea (s.value % 256)])
  | .absy_4_4_T6 => ExecuteOpcode m s
  | .ph_5_1_T1 => ({ s with addressModeCycleFn := .ph_5_1_T2 }, [BusOp.read s.pc])
  | .ph_5_1_T2 => ExecuteOpcode m s
  | .pl_5_2_T1 => ({ s with addressModeCycleFn := .pl_5_2_T2 }, [BusOp.read s.pc])
  | .pl_5_2_T2 =>
      ({ s with addressModeCycleFn := .pl_5_2_T3 }, [BusOp.read (0x100 + s.sp)])
  | .pl_5_2_T3 => ExecuteOpcode m s
  | .jsr_5_3_T1 =>
      ({ s with ea := m s.pc % 256, pc := (s.pc + 1) % 65536,
                addressModeCycleFn := .jsr_5_3_T2 }, [BusOp.read s.pc])
  | .jsr_5_3_T2 =>
      ({ s with addressModeCycleFn := .jsr_5_3_T3 }, [BusOp.read (0x100 + s.sp)])
  | .jsr_5_3_T3 =>
      let r := Push s (s.pc / 256 % 256)
      ({ r.1 with addressModeCycleFn := .jsr_5_3_T4 }, r.2)
  | .jsr_5_3_T4 =>
      let r := Push s (s.pc % 256)
      ({ r.1 with addressModeCycleFn := .jsr_5_3_T5 }, r.2)
  | .jsr_5_3_T5 =>
      let e := s.ea ||| 256 * (m s.pc % 256)
      let r := ExecuteOpcode m { s with ea := e, pc := e }
      (r.1, BusOp.read s.pc :: r.2)
  | .rti_5_5_T1 =>
      ({ s with pc := (s.pc + 1) % 65536, addressModeCycleFn := .rti_5_5_T2 },
       [BusOp.read s.pc])
  | .rti_5_5_T2 =>
      ({ s with addressModeCycleFn := .rti_5_5_T3 }, [BusOp.read (0x100 + s.sp)])
  | .rti_5_5_T3 =>
      let r := Pull m s
      ({ r.1.1 with status := r.1.2, addressModeCycleFn := .rti_5_5_T4 }, r.2)
  | .rti_5_5_T4 =>
      let r := Pull m s
      ({ r.1.1 with pc := r.1.2, addressModeCycleFn := .rti_5_5_T5 }, r.2)
  | .rti_5_5_T5 =>
      let r := Pull m s
      let r2 := ExecuteOpcode m { r.1.1 with pc := r.1.1.pc ||| 256 * r.1.2 }
      (r2.1, r.2 ++ r2.2)
  | .abs5_6_1_T1 =>
      ({ s with ea := m s.pc % 256, pc := (s.pc + 1) % 65536,
                addressModeCycleFn := .abs5_6_1_T2 }, [BusOp.read s.pc])
  | .abs5_6_1_T2 =>
      let r := ExecuteOpcode m { s with ea := s.ea ||| 256 * (m s.pc % 256),
                                        pc := (s.pc + 1) % 65536 }
      (r.1, BusOp.read s.pc :: r.2)
  | .abs5_6_2_T1 =>
      ({ s with ia := m s.pc % 256, pc := (s.pc + 1) % 65536,
                addressModeCycleFn := .abs5_6_2_T2 }, [BusOp.read s.pc])
  | .abs5_6_2_T2 =>
      ({ s with ia := s.ia ||| 256 * (m s.pc % 256), pc := (s.pc + 1) % 65536,
                addressModeCycleFn := .abs5_6_2_T3 }, [BusOp.read s.pc])
  | .abs5_6_2_T3 =>
      ({ s with ea := m s.ia % 256, ia := (s.ia + 1) % 65536,
                addressModeCycleFn := .abs5_6_2_T4 }, [BusOp.read s.ia])
  | .abs5_6_2_T4 =>
      let r := ExecuteOpcode m { s with ea := s.ea ||| 256 * (m s.ia % 256) }
      (r.1, BusOp.read s.ia :: r.2)
  | .rts_5_7_T1 =>
      ({ s with pc := (s.pc + 1) % 65536, addressModeCycleFn := .rts_5_7_T2 },
       [BusOp.read s.pc])
  | .rts_5_7_T2 =>
      ({ s with addressModeCycleFn := .rts_5_7_T3 }, [BusOp.read (0x100 + s.sp)])
  | .rts_5_7_T3 =>
      let r := Pull m s
      ({ r.1.1 with pc := r.1.2, addressModeCycleFn := .rts_5_7_T4 }, r.2)
  | .rts_5_7_T4 =>
      let r := Pull m s
      ({ r.1.1 with pc := r.1.1.pc ||| 256 * r.1.2,
                    addressModeCycleFn := .rts_5_7_T5 }, r.2)
  | .rts_5_7_T5 =>
      let r := ExecuteOpcode m { s with pc := (s.pc + 1) % 65536 }
      (r.1, BusOp.read s.pc :: r.2)
  | .brk_5_4_T1 =>
      ({ s with pc := (s.pc + 1) % 65536, addressModeCycleFn := .brk_5_4_T2 },
       [BusOp.read s.pc])
  | .brk_5_4_T2 =>
      let r := Push s (s.pc / 256 % 256)
      ({ r.1 with addressModeCycleFn := .brk_5_4_T3 }, r.2)
  | .brk_5_4_T3 =>
      let r := Push s (s.pc % 256)
      ({ r.1 with addressModeCycleFn := .brk_5_4_T4 }, r.2)
  | .brk_5_4_T4 => brk_5_4_T4_cycle s
  | .brk_5_4_T5 =>
      ({ s with ea := m 0xFFFE % 256, addressModeCycleFn := .brk_5_4_T6 },
       [BusOp.read 0xFFFE])
  | .brk_5_4_T6 =>
      let r := ExecuteOpcode m { s with status := s.status ||| FLAG_INTERRUPT,
                                        pc := s.ea ||| 256 * (m 0xFFFF % 256) }
      (r.1, BusOp.read 0xFFFF :: r.2)
  | .Reset_T0 => ({ s with sp := 0, addressModeCycleFn := .Reset_T1 }, [BusOp.read s.pc])
  | .Reset_T1 => ({ s with addressModeCycleFn := .Reset_T2 }, [BusOp.read s.pc])
  | .Reset_T2 =>
      ({ s with sp := (s.sp + 255) % 256, addressModeCycleFn := .Reset_T3 },
       [BusOp.read (0x100 + s.sp)])
  | .Reset_T3 =>
      ({ s with sp := (s.sp + 255) % 256, addressModeCycleFn := .Reset_T4 },
       [BusOp.read (0x100 + s.sp)])
  | .Reset_T4 =>
      ({ s with status := s.status &&& (255 - FLAG_BREAK),
                sp := (s.sp + 255) % 256, addressModeCycleFn := .Reset_T5 },
       [BusOp.read (0x100 + s.sp)])
  | .Reset_T5 =>
      ({ s with ea := m 0xFFFC % 256, addressModeCycleFn := .Reset_T6 },
       [BusOp.read 0xFFFC])
  | .Reset_T6 =>
      ({ s with pc := s.ea ||| 256 * (m 0xFFFD % 256),
                addressModeCycleFn := .InstructionFetch }, [BusOp.read 0xFFFD])
  | .IRQ_T1 => ({ s with addressModeCycleFn := .IRQ_T2 }, [BusOp.read s.pc])
  | .IRQ_T2 =>
      let r := Push s (s.pc / 256 % 256)
      ({ r.1 with addressModeCycleFn := .IRQ_T3 }, r.2)
  | .IRQ_T3 =>
      let r := Push s (s.pc % 256)
      ({ r.1 with addressModeCycleFn := .IRQ_T4 }, r.2)
  | .IRQ_T4 => IRQ_T4_cycle s
  | .IRQ_T5 =>
      ({ s with ea := m 0xFFFE % 256, addressModeCycleFn := .IRQ_T6 },
       [BusOp.read 0xFFFE])
  | .IRQ_T6 =>
      ({ s with status := s.status ||| FLAG_INTERRUPT,
                pc := s.ea ||| 256 * (m 0xFFFF % 256), IRQPending := false,
                addressModeCycleFn := .InstructionFetchIRQ }, [BusOp.read 0xFFFF])

/-- Modelled from the spec: `M6502::Step` (declared SSD1306.h l.659) lives in
the absent translation unit.  Spec section 4.2: `Step()` calls the function
referenced by `addressModeCycleFn`, which performs exactly one emulated bus
cycle. -/
def Step (m : MemFn) (s : CPU) : CPU × List BusOp :=
  runStage m s s.addressModeCycleFn

/-- Modelled from the spec: `M6502::Reset` (declared SSD1306.h l.658) lives in
the absent translation unit.  Spec section 6: `reset()` begins the 7-cycle
reset sequence at the next `Step()`, i.e. it points the stage cursor at
`Reset_T0`. -/
def ResetFn (s : CPU) : CPU := { s with addressModeCycleFn := Stage.Reset_T0 }

/-- `Interrupt::Assert` on the CPU's `IRQ` child object (SSD1306.h l.250). -/
def AssertIRQ (s : CPU) : CPU := { s with IRQAsserted := true }

/-- `Interrupt::Release` on the CPU's `IRQ` child object (SSD1306.h l.251). -/
def ReleaseIRQ (s : CPU) : CPU := { s with IRQAsserted := false }

/-- `M6502::SO` (SSD1306.h l.665): `SetV()`, immediately and unconditionally. -/
def SOFn (s : CPU) : CPU := { s with status := s.status ||| FLAG_OVERFLOW }

/-- The CPU object as constructed: the C++ members left uninitialised by the
constructors are taken from an arbitrary `junk` record; `SetBusFunctions`
(SSD1306.h l.657) sets `status = FLAG_CONSTANT` and calls `Reset()`. -/
def construct (junk : CPU) : CPU :=
  ResetFn { junk with status := FLAG_CONSTANT }

/-- The outer `M6502` object for the constructor contract: the two stored bus
callback pointers (null pointers modelled as `none`) plus the CPU state. -/
structure M6502Obj (α β : Type) where
  dataBusReadFn : Option α
  dataBusWriteFn : Option β
  cpu : CPU

/-- `M6502::SetBusFunctions` (SSD1306.h l.657), also the body of the main
constructor (l.656): store both callback pointers unconditionally (no null
check exists in the source), set `status = FLAG_CONSTANT`, and call
`Reset()`. -/
def SetBusFunctions {α β : Type} (r : Option α) (w : Option β)
    (obj : M6502Obj α β) : M6502Obj α β :=
  { dataBusReadFn := r, dataBusWriteFn := w,
    cpu := ResetFn { obj.cpu with status := FLAG_CONSTANT } }

/-- The state after `n` calls to `Step()` against bus-read behaviour `m`. -/
def stepN (m : MemFn) (s : CPU) : Nat → CPU
  | 0 => s
  | n + 1 => (Step m (stepN m s n)).1

/-- The bus transactions of the `(n+1)`-th `Step()` call. -/
def opsOfStep (m : MemFn) (s : CPU) (n : Nat) : List BusOp :=
  (Step m (stepN m s n)).2

/-- All bus transactions of the first `n` `Step()` calls, in order. -/
def opsUpTo (m : MemFn) (s : CPU) : Nat → List BusOp
  | 0 => []
  | n + 1 => opsUpTo m s n ++ opsOfStep m s n

/-- Classification of opcode bodies by the bus traffic they generate
themselves: `pure` bodies only touch registers and flags; `writeVal` bodies
end in `WriteValue` (one write, except in accumulator mode); `push` / `pull`
bodies use the stack helpers (one write / one read); `branch` bodies run the
`BRANCH_CONDITION` macro (one operand read). -/
inductive OpClass where
  | pure
  | writeVal
  | push
  | pull
  | branch
deriving DecidableEq, Repr

/-- The bus class of each opcode body, read off SSD1306.h l.340-417. -/
def opClass (op : Op) : OpClass :=
  match op with
  | .ASL | .DEC | .INC | .LSR | .ROL | .ROR | .STA | .STX | .STY | .SAX
  | .SHA | .SHY | .DCP | .ISB | .SLO | .RLA | .SRE | .RRA | .SHS | .SHX =>
      .writeVal
  | .PHA | .PHP => .push
  | .PLA | .PLP => .pull
  | .BCC | .BCS | .BEQ | .BMI | .BNE | .BPL | .BVC | .BVS => .branch
  | _ => .pure

/-- The opcode-class requirement a stage places on the opcode cursor.
`reqPure`: the chain's execute point performs its own read, so the body must
stay off the bus; `reqWriteVal`: the execute point has no access of its own
and the body must write exactly once via `WriteValue`; `reqPush` / `reqPull` /
`reqBranch`: the `ph_5_1` / `pl_5_2` / `rel_5_8` chains; `reqAcc`: the
accumulator stage `sb_1_T1` (pure or `WriteValue`-into-`a`); `reqAny`: stages
that never invoke the opcode body. -/
inductive StageReq where
  | reqPure
  | reqWriteVal
  | reqPush
  | reqPull
  | reqBranch
  | reqAcc
  | reqAny
deriving DecidableEq, Repr

/-- The requirement of each stage, read off the stage chains of
SSD1306.h l.425-623 and the dispatch tables. -/
def stageReq (st : Stage) : StageReq :=
  match st with
  | .sb_1_T1 => .reqAcc
  | .sb_jam_T1 | .imm_2_1_T1
  | .zp_2_1_T1 | .zp_2_1_T2
  | .abs_2_3_T1 | .abs_2_3_T2 | .abs_2_3_T3
  | .idx_2_4_T1 | .idx_2_4_T2 | .idx_2_4_T3 | .idx_2_4_T4 | .idx_2_4_T5
  | .absx_2_5_T1 | .absx_2_5_T2 | .absx_2_5_T3 | .absx_2_5_T4
  | .absy_2_5_T1 | .absy_2_5_T2 | .absy_2_5_T3 | .absy_2_5_T4
  | .zpx_2_6_T1 | .zpx_2_6_T2 | .zpx_2_6_T3
  | .zpy_2_6_T1 | .zpy_2_6_T2 | .zpy_2_6_T3
  | .idy_2_7_T1 | .idy_2_7_T2 | .idy_2_7_T3 | .idy_2_7_T4 | .idy_2_7_T5
  | .jsr_5_3_T1 | .jsr_5_3_T2 | .jsr_5_3_T3 | .jsr_5_3_T4 | .jsr_5_3_T5
  | .rti_5_5_T1 | .rti_5_5_T2 | .rti_5_5_T3 | .rti_5_5_T4 | .rti_5_5_T5
  | .rts_5_7_T1 | .rts_5_7_T2 | .rts_5_7_T3 | .rts_5_7_T4 | .rts_5_7_T5
  | .abs5_6_1_T1 | .abs5_6_1_T2
  | .abs5_6_2_T1 | .abs5_6_2_T2 | .abs5_6_2_T3 | .abs5_6_2_T4
  | .brk_5_4_T1 | .brk_5_4_T2 | .brk_5_4_T3 | .brk_5_4_T4 | .brk_5_4_T5
  | .brk_5_4_T6 => .reqPure
  | .zp_3_1_T1 | .zp_3_1_T2
  | .abs_3_2_T1 | .abs_3_2_T2 | .abs_3_2_T3
  | .idx_3_3_T1 | .idx_3_3_T2 | .idx_3_3_T3 | .idx_3_3_T4 | .idx_3_3_T5
  | .absx_3_4_T1 | .absx_3_4_T2 | .absx_3_4_T3 | .absx_3_4_T4
  | .absy_3_4_T1 | .absy_3_4_T2 | .absy_3_4_T3 | .absy_3_4_T4
  | .zpx_3_5_T1 | .zpx_3_5_T2 | .zpx_3_5_T3
  | .zpy_3_5_T1 | .zpy_3_5_T2 | .zpy_3_5_T3
  | .idy_3_6_T1 | .idy_3_6_T2 | .idy_3_6_T3 | .idy_3_6_T4 | .idy_3_6_T5
  | .idx_Undoc_T1 | .idx_Undoc_T2 | .idx_Undoc_T3 | .idx_Undoc_T4
  | .idx_Undoc_T5 | .idx_Undoc_T6 | .idx_Undoc_T7
  | .idy_Undoc_T1 | .idy_Undoc_T2 | .idy_Undoc_T3 | .idy_Undoc_T4
  | .idy_Undoc_T5 | .idy_Undoc_T6 | .idy_Undoc_T7
  | .zp_4_1_T1 | .zp_4_1_T2 | .zp_4_1_T3 | .zp_4_1_T4
  | .abs_4_2_T1 | .abs_4_2_T2 | .abs_4_2_T3 | .abs_4_2_T4 | .abs_4_2_T5
  | .zpx_4_3_T1 | .zpx_4_3_T2 | .zpx_4_3_T3 | .zpx_4_3_T4 | .zpx_4_3_T5
  | .absx_4_4_T1 | .absx_4_4_T2 | .absx_4_4_T3 | .absx_4_4_T4 | .absx_4_4_T5
  | .absx_4_4_T6
  | .absy_4_4_T1 | .absy_4_4_T2 | .absy_4_4_T3 | .absy_4_4_T4 | .absy_4_4_T5
  | .absy_4_4_T6 => .reqWriteVal
  | .ph_5_1_T1 | .ph_5_1_T2 => .reqPush
  | .pl_5_2_T1 | .pl_5_2_T2 | .pl_5_2_T3 => .reqPull
  | .rel_5_8_T1 => .reqBranch
  | _ => .reqAny

/-- Compatibility of a stage cursor with an opcode cursor: the discipline the
dispatch tables maintain so that every cycle issues exactly one bus access. -/
def compat (st : Stage) (op : Op) : Bool :=
  match stageReq st with
  | .reqPure => opClass op == .pure
  | .reqWriteVal => opClass op == .writeVal
  | .reqPush => opClass op == .push
  | .reqPull => opClass op == .pull
  | .reqBranch => opClass op == .branch
  | .reqAcc => opClass op == .pure || opClass op == .writeVal
  | .reqAny => true

/-- States reachable through the public interface: construction, `Step()`,
`Reset()`, IRQ line assertion and release, and `SO()`. -/
inductive Reachable : CPU → Prop where
  | constructed (junk : CPU) : Reachable (construct junk)
  | step (m : MemFn) {s : CPU} : Reachable s → Reachable (Step m s).1
  | reset {s : CPU} : Reachable s → Reachable (ResetFn s)
  | assertIRQ {s : CPU} : Reachable s → Reachable (AssertIRQ s)
  | releaseIRQ {s : CPU} : Reachable s → Reachable (ReleaseIRQ s)
  | so {s : CPU} : Reachable s → Reachable (SOFn s)

/-- A concrete record for the members the C++ constructors leave
uninitialised (every field zero / false, cursors at the fetch stage and NOP). -/
def cpu0 : CPU :=
  { ea := 0, ia := 0, value := 0, pc := 0, opcode := 0, a := 0, x := 0, y := 0,
    status := 0, sp := 0, CLIMaskingInterrupt := false,
    BranchTakenMaskingInterrupt := false, IRQPending := false,
    IRQAsserted := false, addressModeCycleFn := .InstructionFetch,
    opcodeCycleFn := .NOP }

/-- Bus-read behaviour given by an association list of address-byte pairs
(every unlisted address reads as zero). -/
def prog (l : List (Nat × Nat)) : MemFn := fun a => (l.lookup a).getD 0

/-- Memory for the RTI scenario: reset vector `$0200`, an RTI opcode there,
and zeroes everywhere else (in particular on the stack). -/
def memRTI : MemFn := prog [(0xFFFD, 0x02), (0x200, 0x40)]

/-- Memory for the JMP (ind) scenario: reset vector `$0200`,
`JMP ($02FF)` there, jump-target low byte `$34` at `$02FF`, `$12` at `$0300`.
The byte at `$0200` (the same-page wrap address) is the JMP opcode `$6C`. -/
def memJMP : MemFn :=
  prog [(0xFFFD, 0x02), (0x200, 0x6C), (0x201, 0xFF), (0x202, 0x02),
        (0x2FF, 0x34), (0x300, 0x12)]

/-- Memory for the JAM scenario: reset vector `$0200`, the JAM opcode `$02`
there, a NOP (`$EA`) after it. -/
def memJAM : MemFn := prog [(0xFFFD, 0x02), (0x200, 0x02), (0x201, 0xEA)]

/-- Memory for the PLP scenario: reset vector `$0200`, `PLP` there, byte
`$10` (the B flag alone) at stack address `$01FE` where the pull lands. -/
def memPLP : MemFn := prog [(0xFFFD, 0x02), (0x200, 0x28), (0x1FE, 0x10)]

/-- Memory for the SHY scenario: reset vector `$0200`, then
`LDX #$80; LDY #$FF; SHY $0280,X` (a page-crossing indexed store). -/
def memSHY : MemFn :=
  prog [(0xFFFD, 0x02), (0x200, 0xA2), (0x201, 0x80), (0x202, 0xA0),
        (0x203, 0xFF), (0x204, 0x9C), (0x205, 0x80), (0x206, 0x02)]

/-- Memory for the `INC $FF,X` scenario: reset vector `$0200`, then
`LDX #$01; INC $FF,X`. -/
def memINC : MemFn :=
  prog [(0xFFFD, 0x02), (0x200, 0xA2), (0x201, 0x01), (0x202, 0xF6),
        (0x203, 0xFF)]

/-- A pure opcode body issues no bus access. -/
theorem execOp_pure_ops (m : MemFn) (op : Op) (h : opClass op = OpClass.pure) :
    ∀ s : CPU, (execOp m op s).2 = [] := by
  intro s
  cases op <;> first | rfl | exact absurd h (by decide)

/-- Outside the accumulator stage, a `WriteValue`-class body issues exactly
one bus write, to `ea`. -/
theorem execOp_writeVal_ops (m : MemFn) (op : Op) (h : opClass op = OpClass.writeVal) :
    ∀ s : CPU, s.addressModeCycleFn ≠ Stage.sb_1_T1 →
      ∃ v, (execOp m op s).2 = [BusOp.write s.ea v] := by
  intro s h2
  cases op <;>
    first
    | exact absurd h (by decide)
    | simp [execOp, WriteValue, h2]

/-- At the accumulator stage, a `WriteValue`-class body issues no bus access
(the result lands in register `a`). -/
theorem execOp_writeVal_acc (m : MemFn) (op : Op) (h : opClass op = OpClass.writeVal) :
    ∀ s : CPU, s.addressModeCycleFn = Stage.sb_1_T1 → (execOp m op s).2 = [] := by
  intro s h2
  cases op <;>
    first
    | exact absurd h (by decide)
    | simp [execOp, WriteValue, h2]

/-- PHA and PHP issue exactly one stack write. -/
theorem execOp_push_ops (m : MemFn) (op : Op) (h : opClass op = OpClass.push) :
    ∀ s : CPU, ∃ v, (execOp m op s).2 = [BusOp.write (0x100 + s.sp) v] := by
  intro s
  cases op <;> first | exact ⟨_, rfl⟩ | exact absurd h (by decide)

/-- PLA and PLP issue exactly one stack read. -/
theorem execOp_pull_ops (m : MemFn) (op : Op) (h : opClass op = OpClass.pull) :
    ∀ s : CPU, (execOp m op s).2 = [BusOp.read (0x100 + (s.sp + 1) % 256)] := by
  intro s
  cases op <;> first | rfl | exact absurd h (by decide)

/-- A branch body issues exactly one read (the offset operand at `pc`) and
chains either to `rel_5_8_T2` (taken) or to the fetch stage (not taken). -/
theorem execOp_branch_shape (m : MemFn) (op : Op) (h : opClass op = OpClass.branch) :
    ∀ s : CPU, (execOp m op s).2 = [BusOp.read s.pc] ∧
      ((execOp m op s).1.addressModeCycleFn = Stage.rel_5_8_T2 ∨
       (execOp m op s).1.addressModeCycleFn = Stage.InstructionFetch) := by
  intro s
  cases op <;>
    first
    | exact absurd h (by decide)
    | (refine ⟨rfl, ?_⟩; simp only [execOp, branchCond]; split <;> simp)

/-- Unpacking `compat` at a stage that requires a pure body. -/
theorem compat_elim_pure {st : Stage} {op : Op} (h : compat st op = true)
    (hr : stageReq st = StageReq.reqPure) : opClass op = OpClass.pure := by
  unfold compat at h; rw [hr] at h; simpa using h

/-- Unpacking `compat` at a stage that requires a `WriteValue` body. -/
theorem compat_elim_writeVal {st : Stage} {op : Op} (h : compat st op = true)
    (hr : stageReq st = StageReq.reqWriteVal) : opClass op = OpClass.writeVal := by
  unfold compat at h; rw [hr] at h; simpa using h

/-- Unpacking `compat` at the push stages. -/
theorem compat_elim_push {st : Stage} {op : Op} (h : compat st op = true)
    (hr : stageReq st = StageReq.reqPush) : opClass op = OpClass.push := by
  unfold compat at h; rw [hr] at h; simpa using h

/-- Unpacking `compat` at the pull stages. -/
theorem compat_elim_pull {st : Stage} {op : Op} (h : compat st op = true)
    (hr : stageReq st = StageReq.reqPull) : opClass op = OpClass.pull := by
  unfold compat at h; rw [hr] at h; simpa using h

/-- Unpacking `compat` at the branch T1 stage. -/
theorem compat_elim_branch {st : Stage} {op : Op} (h : compat st op = true)
    (hr : stageReq st = StageReq.reqBranch) : opClass op = OpClass.branch := by
  unfold compat at h; rw [hr] at h; simpa using h

/-- Unpacking `compat` at the accumulator stage. -/
theorem compat_elim_acc (op : Op) : compat Stage.sb_1_T1 op = true →
    opClass op = OpClass.pure ∨ opClass op = OpClass.writeVal := by
  cases op <;> decide

set_option maxHeartbeats 1000000 in
set_option maxRecDepth 4096 in
/-- The two dispatch tables only ever pair a T1 stage with a compatible
opcode body: checked for all 256 opcode bytes. -/
theorem table_compat :
    ∀ k : Fin 256, compat (T1AddressModeFunctions k.val) (opcodeFunctions k.val) = true := by
  decide

set_option maxHeartbeats 2000000 in
/-- The central cycle lemma: from any state whose stage and opcode cursors are
compatible, one `Step` issues exactly one bus transaction and re-establishes
compatibility. -/
theorem stepPreserves (m : MemFn) (s : CPU)
    (h : compat s.addressModeCycleFn s.opcodeCycleFn = true) :
    (∃ b : BusOp, (Step m s).2 = [b]) ∧
      compat (Step m s).1.addressModeCycleFn (Step m s).1.opcodeCycleFn = true := by
  obtain ⟨ea, ia, value, pc, opcode, a, x, y, status, sp, cli, btm, irqp, irqa, st, op⟩ := s
  cases st <;>
    first
    | exact ⟨⟨_, rfl⟩, h⟩
    | exact ⟨⟨_, rfl⟩, rfl⟩
    | -- execute cycles that read and then run a pure body
      (have hz := execOp_pure_ops m op (compat_elim_pure h rfl)
       refine ⟨?_, rfl⟩
       change ∃ b, _ :: (execOp m op _).2 = [b]
       rw [hz]
       exact ⟨_, rfl⟩)
    | -- rti_5_5_T5: the pull's read followed by the pure body's (absent) accesses
      (have hz := execOp_pure_ops m op (compat_elim_pure h rfl)
       refine ⟨?_, rfl⟩
       change ∃ b, _ ++ (execOp m op _).2 = [b]
       rw [hz]
       exact ⟨_, rfl⟩)
    | -- execute cycles of write / RMW chains: the body writes exactly once
      (refine ⟨?_, rfl⟩
       change ∃ b, (execOp m op _).2 = [b]
       refine ⟨_, (execOp_writeVal_ops m op (compat_elim_writeVal h rfl) _ ?_).choose_spec⟩
       exact fun hh => Stage.noConfusion hh)
    | -- ph_5_1_T2
      (refine ⟨?_, rfl⟩
       change ∃ b, (execOp m op _).2 = [b]
       exact ⟨_, (execOp_push_ops m op (compat_elim_push h rfl) _).choose_spec⟩)
    | -- pl_5_2_T3
      (refine ⟨?_, rfl⟩
       change ∃ b, (execOp m op _).2 = [b]
       exact ⟨_, execOp_pull_ops m op (compat_elim_pull h rfl) _⟩)
    | -- sb_1_T1: a pure body or an accumulator-mode WriteValue body
      (have hc := compat_elim_acc op h
       refine ⟨?_, rfl⟩
       change ∃ b, _ :: (execOp m op _).2 = [b]
       rcases hc with hc | hc
       · rw [execOp_pure_ops m op hc]
         exact ⟨_, rfl⟩
       · rw [execOp_writeVal_acc m op hc _ rfl]
         exact ⟨_, rfl⟩)
    | -- rel_5_8_T1: the branch body reads the offset operand
      (obtain ⟨hops, hnext⟩ := execOp_branch_shape m op (compat_elim_branch h rfl)
         ⟨ea, ia, value, pc, opcode, a, x, y, status, sp, cli, btm, irqp, irqa,
          Stage.rel_5_8_T1, op⟩
       refine ⟨⟨_, hops⟩, ?_⟩
       change compat (execOp m op _).1.addressModeCycleFn
         (execOp m op _).1.opcodeCycleFn = true
       rcases hnext with hn | hn <;> rw [hn] <;> rfl)
    | -- rel_5_8_T2: one dummy read on both the same-page and the crossing path
      (refine ⟨⟨_, rfl⟩, ?_⟩
       change compat (rel_5_8_T2_cycle _).1.addressModeCycleFn
         (rel_5_8_T2_cycle _).1.opcodeCycleFn = true
       unfold rel_5_8_T2_cycle
       split <;> rfl)
    | -- absx_2_5_T3: read-and-execute on the same page, dummy read on a cross
      (have hz := execOp_pure_ops m op (compat_elim_pure h rfl)
       change (∃ b, (absx_2_5_T3_cycle m _).2 = [b]) ∧
         compat (absx_2_5_T3_cycle m _).1.addressModeCycleFn
           (absx_2_5_T3_cycle m _).1.opcodeCycleFn = true
       unfold absx_2_5_T3_cycle
       split
       · refine ⟨?_, rfl⟩
         change ∃ b, _ :: (execOp m op _).2 = [b]
         rw [hz]
         exact ⟨_, rfl⟩
       · exact ⟨⟨_, rfl⟩, h⟩)
    | -- absy_2_5_T3
      (have hz := execOp_pure_ops m op (compat_elim_pure h rfl)
       change (∃ b, (absy_2_5_T3_cycle m _).2 = [b]) ∧
         compat (absy_2_5_T3_cycle m _).1.addressModeCycleFn
           (absy_2_5_T3_cycle m _).1.opcodeCycleFn = true
       unfold absy_2_5_T3_cycle
       split
       · refine ⟨?_, rfl⟩
         change ∃ b, _ :: (execOp m op _).2 = [b]
         rw [hz]
         exact ⟨_, rfl⟩
       · exact ⟨⟨_, rfl⟩, h⟩)
    | -- idy_2_7_T4
      (have hz := execOp_pure_ops m op (compat_elim_pure h rfl)
       change (∃ b, (idy_2_7_T4_cycle m _).2 = [b]) ∧
         compat (idy_2_7_T4_cycle m _).1.addressModeCycleFn
           (idy_2_7_T4_cycle m _).1.opcodeCycleFn = true
       unfold idy_2_7_T4_cycle
       split
       · refine ⟨?_, rfl⟩
         change ∃ b, _ :: (execOp m op _).2 = [b]
         rw [hz]
         exact ⟨_, rfl⟩
       · exact ⟨⟨_, rfl⟩, h⟩)
    | -- InstructionFetch / InstructionFetchIRQ: IRQ entry or a table fetch
      (change (∃ b, (instructionFetchCycle m _).2 = [b]) ∧
         compat (instructionFetchCycle m _).1.addressModeCycleFn
           (instructionFetchCycle m _).1.opcodeCycleFn = true
       unfold instructionFetchCycle
       split
       · exact ⟨⟨_, rfl⟩, rfl⟩
       · exact ⟨⟨_, rfl⟩, table_compat ⟨m pc % 256, Nat.mod_lt _ (by norm_num)⟩⟩)

/-- Every reachable state has compatible stage and opcode cursors. -/
theorem reachable_compat {s : CPU} (h : Reachable s) :
    compat s.addressModeCycleFn s.opcodeCycleFn = true := by
  induction h with
  | constructed junk => rfl
  | step m hs ih => exact (stepPreserves m _ ih).2
  | reset hs ih => rfl
  | assertIRQ hs ih => exact ih
  | releaseIRQ hs ih => exact ih
  | so hs ih => exact ih

/-- Iterated `Step` preserves reachability. -/
theorem reachable_stepN (m : MemFn) {s : CPU} (h : Reachable s) :
    ∀ n : Nat, Reachable (stepN m s n)
  | 0 => h
  | n + 1 => Reachable.step m (reachable_stepN m h n)

/-- C1: for every call to `Step()` on a constructed CPU — in any state
reachable through construction, `Step()`, `Reset()`, IRQ assert/release and
`SO()` — exactly one bus callback is invoked: the cycle's transaction list is
a single element which is a read and not a write, or a write and not a read.
(RDY halting, the claim's only stated exception, is compiled out in this
configuration: `SUPPORT_RDY_HALTING` is undefined in SSD1306.h l.213, so no
RDY-halt state exists and the unconditional form holds; a JAM cycle is an
ordinary single-read cycle here.) -/
theorem C1_step_exactly_one_bus_access {s : CPU} (hreach : Reachable s) (m : MemFn) :
    ∃ b : BusOp, (Step m s).2 = [b] ∧
      ((b.isRead = true ∧ b.isWrite = false) ∨ (b.isWrite = true ∧ b.isRead = false)) := by
  obtain ⟨b, hb⟩ := (stepPreserves m s (reachable_compat hreach)).1
  refine ⟨b, hb, ?_⟩
  cases b
  · exact Or.inl ⟨rfl, rfl⟩
  · exact Or.inr ⟨rfl, rfl⟩

/-- Witness for C1 at a concrete input: the freshly constructed CPU with the
all-zero junk record and the all-zero bus. -/
theorem C1_witness :
    ∃ b : BusOp, (Step (fun _ => 0) (construct cpu0)).2 = [b] ∧
      ((b.isRead = true ∧ b.isWrite = false) ∨ (b.isWrite = true ∧ b.isRead = false)) :=
  C1_step_exactly_one_bus_access (Reachable.constructed cpu0) (fun _ => 0)

/-- C2: the claim says bit 5 (U, `0x20`) of `status` is 1 in every reachable
state.  The code violates it: `rti_5_5_T3` (SSD1306.h l.572) assigns
`status = Pull()` without `| FLAG_CONSTANT`, so an RTI that pulls a stack
byte with bit 5 clear drops U.  Concretely: construct, run the 7-cycle reset
(vector `$0200`), fetch the RTI at `$0200` and run it to its T3 cycle (11
steps in total); the pulled byte at `$01FE` is `$00` and `status` becomes 0,
a reachable state with `status &&& 0x20 = 0`. -/
theorem C2_rti_clears_U :
    Reachable (stepN memRTI (construct cpu0) 11) ∧
      (stepN memRTI (construct cpu0) 11).status &&& 0x20 = 0 := by
  refine ⟨reachable_stepN memRTI (Reachable.constructed cpu0) 11, ?_⟩
  decide

/-- C3: the claim says `JMP ($XXFF)` reads the target high byte from `$XX00`
(same-page wrap, the NMOS hardware bug).  The code violates it:
`abs5_6_2_T3` does `ea = BUS_READ(ia++)` with a full 16-bit increment and
`abs5_6_2_T4` reads `BUS_READ(ia)` unmasked (SSD1306.h l.581-582), so the
high byte comes from `$(XX+1)00`.  Concretely (`memJMP`): `JMP ($02FF)`
with `$34` at `$02FF`, `$12` at `$0300`, and the JMP opcode byte `$6C`
itself at `$0200`: the 11th step reads `$02FF`, the 12th reads `$0300`
(not `$0200`), and `pc` ends at `$1234` (a same-page wrap would give
`$6C34`). -/
theorem C3_jmp_indirect_no_page_wrap :
    opsOfStep memJMP (construct cpu0) 10 = [BusOp.read 0x02FF] ∧
    opsOfStep memJMP (construct cpu0) 11 = [BusOp.read 0x0300] ∧
    (stepN memJMP (construct cpu0) 12).pc = 0x1234 ∧
    memJMP 0x0200 = 0x6C ∧ ¬(stepN memJMP (construct cpu0) 12).pc = 0x6C34 := by
  refine ⟨?_, ?_, ?_, rfl, ?_⟩ <;> decide

/-- C4 counterexample: with prior `sp = $10`, the 7-cycle reset sequence ends
with `sp = $FD`, not `$10 - 3 = $0D` — `Reset_T0` (SSD1306.h l.599) first
forces `sp = 0`. -/
theorem C4_counterexample :
    (stepN (fun _ => 0) (construct { cpu0 with sp := 0x10 }) 7).sp = 0xFD ∧
      ¬(stepN (fun _ => 0) (construct { cpu0 with sp := 0x10 }) 7).sp
          = (0x10 + 253) % 256 := by
  constructor <;> decide

set_option maxRecDepth 8192 in
set_option maxHeartbeats 4000000 in
/-- C4 as amended: for every prior CPU state and bus behaviour, the 7-cycle
reset sequence issues only bus reads (no write callback), and ends with
`sp = $FD` regardless of the prior stack pointer (`Reset_T0` zeroes `sp`
before the three decrementing stack reads), leaving the CPU at the
instruction fetch stage. -/
theorem C4_reset_reads_only_ends_sp_FD (m : MemFn) (junk : CPU) :
    (stepN m (construct junk) 7).sp = 0xFD ∧
    (stepN m (construct junk) 7).addressModeCycleFn = Stage.InstructionFetch ∧
    (opsUpTo m (construct junk) 7).all BusOp.isRead = true := by
  have e1 : stepN m (construct junk) 1
      = { junk with status := 32, sp := 0, addressModeCycleFn := Stage.Reset_T1 } := by
    with_unfolding_all rfl
  have e2 : stepN m (construct junk) 2
      = { junk with status := 32, sp := 0, addressModeCycleFn := Stage.Reset_T2 } := by
    show (Step m (stepN m (construct junk) 1)).1 = _
    rw [e1]; with_unfolding_all rfl
  have e3 : stepN m (construct junk) 3
      = { junk with status := 32, sp := 255, addressModeCycleFn := Stage.Reset_T3 } := by
    show (Step m (stepN m (construct junk) 2)).1 = _
    rw [e2]; with_unfolding_all rfl
  have e4 : stepN m (construct junk) 4
      = { junk with status := 32, sp := 254, addressModeCycleFn := Stage.Reset_T4 } := by
    show (Step m (stepN m (construct junk) 3)).1 = _
    rw [e3]; with_unfolding_all rfl
  have e5 : stepN m (construct junk) 5
      = { junk with
          status := 32 &&& (255 - FLAG_BREAK), sp := 253,
          addressModeCycleFn := Stage.Reset_T5 } := by
    show (Step m (stepN m (construct junk) 4)).1 = _
    rw [e4]; with_unfolding_all rfl
  have e6 : stepN m (construct junk) 6
      = { junk with
          status := 32 &&& (255 - FLAG_BREAK), sp := 253, ea := m 0xFFFC % 256,
          addressModeCycleFn := Stage.Reset_T6 } := by
    show (Step m (stepN m (construct junk) 5)).1 = _
    rw [e5]; with_unfolding_all rfl
  have e7 : stepN m (construct junk) 7
      = { junk with
          status := 32 &&& (255 - FLAG_BREAK), sp := 253, ea := m 0xFFFC % 256,
          pc := m 0xFFFC % 256 ||| 256 * (m 0xFFFD % 256),
          addressModeCycleFn := Stage.InstructionFetch } := by
    show (Step m (stepN m (construct junk) 6)).1 = _
    rw [e6]; with_unfolding_all rfl
  refine ⟨by rw [e7], by rw [e7], ?_⟩
  have o0 : opsOfStep m (construct junk) 0 = [BusOp.read junk.pc] := rfl
  have o1 : opsOfStep m (construct junk) 1 = [BusOp.read junk.pc] := by
    show (Step m (stepN m (construct junk) 1)).2 = _
    rw [e1]; with_unfolding_all rfl
  have o2 : opsOfStep m (construct junk) 2 = [BusOp.read (0x100 + 0)] := by
    show (Step m (stepN m (construct junk) 2)).2 = _
    rw [e2]; with_unfolding_all rfl
  have o3 : opsOfStep m (construct junk) 3 = [BusOp.read (0x100 + 255)] := by
    show (Step m (stepN m (construct junk) 3)).2 = _
    rw [e3]; with_unfolding_all rfl
  have o4 : opsOfStep m (construct junk) 4 = [BusOp.read (0x100 + 254)] := by
    show (Step m (stepN m (construct junk) 4)).2 = _
    rw [e4]; with_unfolding_all rfl
  have o5 : opsOfStep m (construct junk) 5 = [BusOp.read 0xFFFC] := by
    show (Step m (stepN m (construct junk) 5)).2 = _
    rw [e5]; with_unfolding_all rfl
  have o6 : opsOfStep m (construct junk) 6 = [BusOp.read 0xFFFD] := by
    show (Step m (stepN m (construct junk) 6)).2 = _
    rw [e6]; with_unfolding_all rfl
  show (opsUpTo m (construct junk) 6 ++ opsOfStep m (construct junk) 6).all BusOp.isRead = true
  rw [show opsUpTo m (construct junk) 6
      = opsUpTo m (construct junk) 5 ++ opsOfStep m (construct junk) 5 from rfl,
    show opsUpTo m (construct junk) 5
      = opsUpTo m (construct junk) 4 ++ opsOfStep m (construct junk) 4 from rfl,
    show opsUpTo m (construct junk) 4
      = opsUpTo m (construct junk) 3 ++ opsOfStep m (construct junk) 3 from rfl,
    show opsUpTo m (construct junk) 3
      = opsUpTo m (construct junk) 2 ++ opsOfStep m (construct junk) 2 from rfl,
    show opsUpTo m (construct junk) 2
      = opsUpTo m (construct junk) 1 ++ opsOfStep m (construct junk) 1 from rfl,
    show opsUpTo m (construct junk) 1
      = [] ++ opsOfStep m (construct junk) 0 from rfl,
    o0, o1, o2, o3, o4, o5, o6]
  simp [BusOp.isRead]

/-- C5 counterexample: run `memJAM` (reset to `$0200`, JAM opcode `$02`
there, NOP after it).  After 9 steps the JAM instruction has fetched and
executed (`opcode = $02`, `pc = $0201`); the claim says every further
`Step()` leaves the state unchanged, but step 10 fetches the next
instruction: `pc` advances to `$0202`, and the state differs. -/
theorem C5_counterexample :
    (stepN memJAM (construct cpu0) 9).opcode = 0x02 ∧
    (stepN memJAM (construct cpu0) 9).pc = 0x0201 ∧
    (stepN memJAM (construct cpu0) 10).pc = 0x0202 ∧
    ¬stepN memJAM (construct cpu0) 10 = stepN memJAM (construct cpu0) 9 := by
  refine ⟨?_, ?_, ?_, ?_⟩ <;> decide

/-- C5 as amended: a JAM opcode is a two-cycle instruction, not a freeze.
Its single post-fetch cycle performs one dummy read at `pc`, leaves every
register and flag unchanged, and hands control back to the instruction
fetch stage, so the CPU continues with the following byte (the dispatch
table maps JAM opcode `$02` to `sb_jam_T1` with body `JAM`, which is
empty). -/
theorem C5_jam_two_cycles_no_freeze (m : MemFn) (s : CPU) :
    Step m { s with addressModeCycleFn := Stage.sb_jam_T1, opcodeCycleFn := Op.JAM }
      = ({ s with addressModeCycleFn := Stage.InstructionFetch, opcodeCycleFn := Op.JAM },
         [BusOp.read s.pc]) ∧
    T1AddressModeFunctions 0x02 = Stage.sb_jam_T1 ∧
    opcodeFunctions 0x02 = Op.JAM := by
  exact ⟨rfl, rfl, rfl⟩

/-- C6 counterexample: run `memPLP` (reset to `$0200`, `PLP` there, byte
`$10` at the pulled stack address `$01FE`).  Before the PLP completes
(10 steps) the B flag of `status` is 0; after its pull cycle (11 steps)
`status = $30`, so B became 1 — PLP does not leave B at its prior register
value, it takes it from the stack byte. -/
theorem C6_counterexample :
    (stepN memPLP (construct cpu0) 10).status &&& 0x10 = 0 ∧
    (stepN memPLP (construct cpu0) 11).status = 0x30 ∧
    (stepN memPLP (construct cpu0) 11).status &&& 0x10 = 0x10 := by
  refine ⟨?_, ?_, ?_⟩ <;> decide

/-- C6 as amended: `PLP` (SSD1306.h l.380, `status = Pull() | FLAG_CONSTANT`)
sets `status` to the pulled stack byte with U (`0x20`) forced to 1; every
other bit of `status` — including B (`0x10`) — comes from the pulled byte,
not from the register's prior value. -/
theorem C6_plp_pull_or_U (m : MemFn) (s : CPU) :
    Step m { s with addressModeCycleFn := Stage.pl_5_2_T3, opcodeCycleFn := Op.PLP }
      = ({ s with
            sp := (s.sp + 1) % 256,
            status := m (0x100 + (s.sp + 1) % 256) % 256 ||| 0x20,
            addressModeCycleFn := Stage.InstructionFetch, opcodeCycleFn := Op.PLP },
         [BusOp.read (0x100 + (s.sp + 1) % 256)]) := by
  rfl

/-- C7 counterexample: run `memSHY` (`LDX #$80; LDY #$FF; SHY $0280,X`, a
page-crossing indexed store).  At the store cycle the effective address is
the full post-index `$0300` and the stored byte is
`((($0300 >> 8) + 1) & $FF) = $04`; the write goes to `$0300` itself, not to
the high-byte-corrupted address `$0400 = ($04 << 8) | $00` the claim
requires. -/
theorem C7_counterexample :
    (stepN memSHY (construct cpu0) 15).ea = 0x0300 ∧
    (stepN memSHY (construct cpu0) 15).y = 0xFF ∧
    opsOfStep memSHY (construct cpu0) 15 = [BusOp.write 0x0300 0x04] ∧
    ¬(0x0300 : Nat) = 0x04 * 256 := by
  refine ⟨?_, ?_, ?_, ?_⟩ <;> decide

/-- C7 as amended: SHY, SHX, SHA and SHS store
`reg & ((ea >> 8) + 1)` where `ea` is the full post-index effective address
(already carrying any page cross), and the write always targets `ea` itself:
the high byte of the store address is never corrupted by the AND
(SSD1306.h l.407-416 call `WriteValue`, which writes to `ea` unmodified). -/
theorem C7_sh_stores_to_uncorrupted_ea (m : MemFn) (s : CPU) :
    (Step m { s with addressModeCycleFn := Stage.absx_3_4_T4, opcodeCycleFn := Op.SHY }).2
        = [BusOp.write s.ea (((s.ea / 256 + 1) &&& s.y) % 256)] ∧
    (Step m { s with addressModeCycleFn := Stage.absy_3_4_T4, opcodeCycleFn := Op.SHX }).2
        = [BusOp.write s.ea (((s.ea / 256 + 1) &&& s.x) % 256)] ∧
    (Step m { s with addressModeCycleFn := Stage.absy_3_4_T4, opcodeCycleFn := Op.SHA }).2
        = [BusOp.write s.ea ((s.a &&& s.x &&& (s.ea / 256 + 1)) % 256)] ∧
    (Step m { s with addressModeCycleFn := Stage.idy_3_6_T5, opcodeCycleFn := Op.SHA }).2
        = [BusOp.write s.ea ((s.a &&& s.x &&& (s.ea / 256 + 1)) % 256)] ∧
    (Step m { s with addressModeCycleFn := Stage.absy_3_4_T4, opcodeCycleFn := Op.SHS }).2
        = [BusOp.write s.ea ((s.a &&& s.x &&& (s.ea / 256 + 1)) % 256)] := by
  exact ⟨rfl, rfl, rfl, rfl, rfl⟩

/-- C8: zero-page indexed effective addresses wrap modulo 256 and never leave
page 0: at the indexing cycle of every zero-page indexed chain (read, write
and RMW, X and Y variants) the access goes to `(base + index) % 256`, which
is below 256; and the end-to-end `LDX #$01; INC $FF,X` program (`memINC`)
performs its RMW read, dummy write-back and result write all at `$0000`,
not `$0100`. -/
theorem C8_zero_page_indexed_wraps (m : MemFn) (s : CPU) :
    (Step m { s with addressModeCycleFn := Stage.zpx_2_6_T3, opcodeCycleFn := Op.LDA }).2
        = [BusOp.read ((s.ea + s.x) % 256)] ∧
    (Step m { s with addressModeCycleFn := Stage.zpy_2_6_T3, opcodeCycleFn := Op.LDX }).2
        = [BusOp.read ((s.ea + s.y) % 256)] ∧
    (Step m { s with addressModeCycleFn := Stage.zpx_3_5_T3, opcodeCycleFn := Op.STA }).2
        = [BusOp.write ((s.ea + s.x) % 256) (s.a % 256)] ∧
    (Step m { s with addressModeCycleFn := Stage.zpy_3_5_T3, opcodeCycleFn := Op.STX }).2
        = [BusOp.write ((s.ea + s.y) % 256) (s.x % 256)] ∧
    (Step m { s with addressModeCycleFn := Stage.zpx_4_3_T3, opcodeCycleFn := Op.INC }).2
        = [BusOp.read ((s.ea + s.x) % 256)] ∧
    (Step m { s with addressModeCycleFn := Stage.zpx_4_3_T3, opcodeCycleFn := Op.INC }).1.ea
        = (s.ea + s.x) % 256 ∧
    (s.ea + s.x) % 256 < 256 ∧ (s.ea + s.y) % 256 < 256 ∧
    opsOfStep memINC (construct cpu0) 12 = [BusOp.read 0] ∧
    opsOfStep memINC (construct cpu0) 13 = [BusOp.write 0 0] ∧
    opsOfStep memINC (construct cpu0) 14 = [BusOp.write 0 1] := by
  refine ⟨rfl, rfl, rfl, rfl, rfl, rfl, Nat.mod_lt _ (by norm_num),
    Nat.mod_lt _ (by norm_num), ?_, ?_, ?_⟩ <;> decide

/-- C9 counterexample: the claim says construction with a null callback is
rejected; but `SetBusFunctions` (SSD1306.h l.657) performs no check:
constructing with both callbacks null completes normally, stores the null
pointers, and schedules the reset sequence. -/
theorem C9_counterexample :
    (SetBusFunctions (none : Option Unit) (none : Option Unit)
        { dataBusReadFn := none, dataBusWriteFn := none, cpu := cpu0 }).dataBusReadFn
      = none ∧
    (SetBusFunctions (none : Option Unit) (none : Option Unit)
        { dataBusReadFn := none, dataBusWriteFn := none, cpu := cpu0 }).cpu.addressModeCycleFn
      = Stage.Reset_T0 := by
  exact ⟨rfl, rfl⟩

/-- C9 as amended: construction never fails and performs no validation —
`SetBusFunctions` stores whatever callback pointers it is given (null or
not), sets `status` to `FLAG_CONSTANT` (`0x20`) and calls `Reset()`, which
points the stage cursor at `Reset_T0`. -/
theorem C9_construction_unchecked {α β : Type} (r : Option α) (w : Option β)
    (obj : M6502Obj α β) :
    SetBusFunctions r w obj =
      { dataBusReadFn := r, dataBusWriteFn := w,
        cpu := { obj.cpu with status := 0x20, addressModeCycleFn := Stage.Reset_T0 } } := by
  rfl

/-- C10: `WriteValue` (SSD1306.h l.327-331): when the current stage is the
accumulator stage `sb_1_T1` the byte goes to register `a` and the cycle's
only bus access is the dummy read of `pc` (shown for the RMW opcode ASL,
whose accumulator-mode result lands in `a`); at any other stage `WriteValue`
issues exactly one bus write of the byte to `ea` and leaves the whole CPU
state — in particular `a` — unchanged. -/
theorem C10_WriteValue_accumulator_vs_memory (m : MemFn) (s : CPU) (v : Nat) :
    WriteValue { s with addressModeCycleFn := Stage.sb_1_T1 } v
      = ({ s with addressModeCycleFn := Stage.sb_1_T1, a := v % 256 }, []) ∧
    (Step m { s with addressModeCycleFn := Stage.sb_1_T1, opcodeCycleFn := Op.ASL }).2
      = [BusOp.read s.pc] ∧
    (Step m { s with addressModeCycleFn := Stage.sb_1_T1, opcodeCycleFn := Op.ASL }).1.a
      = s.a * 2 % 65536 % 256 ∧
    (s.addressModeCycleFn ≠ Stage.sb_1_T1 →
      WriteValue s v = (s, [BusOp.write s.ea (v % 256)])) := by
  refine ⟨?_, rfl, rfl, ?_⟩
  · simp [WriteValue]
  · intro hne
    simp [WriteValue, hne]

/-- Witness for C10 at a concrete input: `cpu0` sits at the fetch stage,
which is not the accumulator stage. -/
theorem C10_witness :
    cpu0.addressModeCycleFn ≠ Stage.sb_1_T1 ∧
      WriteValue cpu0 7 = (cpu0, [BusOp.write cpu0.ea 7]) := by
  refine ⟨by decide, ?_⟩
  have h := (C10_WriteValue_accumulator_vs_memory (fun _ => 0) cpu0 7).2.2.2 (by decide)
  simpa using h

end MOS6502
